import Mathlib

/-!
Verification of the analysis-and-cleaning engine of the Toing-Intelegensi
repository (Excel Intelligence Bot).  The JavaScript core
(src/utils/helpers.js, src/utils/constants.js, the DataAnalyzer and the
DataCleaner) is shallowly embedded below: JS strings become `String`,
JS numbers become `ℚ` (the engine only does exact decimal arithmetic,
`Math.round`, `Math.floor`, `Math.abs` and comparisons on them), a cell of a
table is `Cell` (null / string / number), fallible parsers return `Option`,
and thrown input-shape errors become `Except String`.

Modelling conventions, used consistently and noted where they matter:
* JS `String.prototype.toLowerCase`/`toUpperCase`/`trim` are modelled on
  ASCII (all identifier/keyword matching in the source is ASCII).
* `Math.round x` is `⌊x + 1/2⌋` (JS rounds half-up towards +∞), and the
  ubiquitous `Math.round(x*100)/100` is `round2`.
* `parseFloat` is modelled by `jsParseFloat`: longest numeric prefix of the
  string, or `none` (JS `NaN`).  The `Infinity` literal is modelled as a
  parse failure; no analyzed value or claim touches it.
* Presentational fields of issue objects (`message`, `fix`) interpolate
  host locale/float formatting; they are omitted from the embedded `Issue`,
  which keeps every structured field the detectors attach (type, severity,
  row, column, value, expected, actual, suggestion, originalRow,
  similarity, reason, autoFixable).
-/

namespace DQ

/- Batteries marks the ℚ field operations `@[irreducible]`; computations on
concrete tables below are settled by `decide`, which needs them to
reduce. -/
attribute [local semireducible] Rat.add Rat.mul Rat.sub Rat.inv Rat.ofScientific

/-! ## JS string primitives (ASCII model) -/

/-- Whitespace characters recognised by the JS `\s` class / `trim` (ASCII part). -/
def isWsChar (c : Char) : Bool :=
  c = ' ' ∨ c = '\t' ∨ c = '\n' ∨ c = '\r' ∨ c = '\x0b' ∨ c = '\x0c'

def lowerChar (c : Char) : Char :=
  if 'A' ≤ c ∧ c ≤ 'Z' then Char.ofNat (c.toNat + 32) else c

def upperChar (c : Char) : Char :=
  if 'a' ≤ c ∧ c ≤ 'z' then Char.ofNat (c.toNat - 32) else c

def jsLower (s : String) : String := (s.toList.map lowerChar).asString

def jsUpper (s : String) : String := (s.toList.map upperChar).asString

def jsTrimList (cs : List Char) : List Char :=
  ((cs.dropWhile isWsChar).reverse.dropWhile isWsChar).reverse

def jsTrim (s : String) : String := (jsTrimList s.toList).asString

/-- `startsWithList p cs`: `cs` begins with the literal `p`. -/
def startsWithList : List Char → List Char → Bool
  | [], _ => true
  | _ :: _, [] => false
  | p :: ps, c :: cs => p = c ∧ startsWithList ps cs

/-- Literal substring search (used for the JS `String.match(/(kw1|kw2|…)/)`
keyword tests, which just check substring containment). -/
def containsList : List Char → List Char → Bool
  | _, [] => false
  | pat, l@(_ :: cs) => startsWithList pat l ∨ containsList pat cs

def containsSub (pat s : String) : Bool := containsList pat.toList s.toList

def containsAny (pats : List String) (s : String) : Bool :=
  pats.any (fun p => containsSub p s)

def isDigitChar (c : Char) : Bool := '0' ≤ c ∧ c ≤ '9'

/-- JS `str.replace(/\D/g,'')`: keep only ASCII digits. -/
def keepDigits (s : String) : String := (s.toList.filter isDigitChar).asString

/-- Numeric value of a digit list (the source only applies `parseInt` to
strings that are entirely digits). -/
def digitsVal (cs : List Char) : Nat :=
  cs.foldl (fun acc c => acc * 10 + (c.toNat - 48)) 0

/-! ## JS number primitives on ℚ -/

/-- JS `Math.round`: half-up, towards +∞. -/
def jsRound (q : ℚ) : ℤ := ⌊q + 1/2⌋

/-- The source's 2-decimal rounding idiom `Math.round(x*100)/100`. -/
def round2 (q : ℚ) : ℚ := ((jsRound (q * 100) : ℤ) : ℚ) / 100

/-- JS `Math.abs` on ℚ. -/
def jsAbs (q : ℚ) : ℚ := if q < 0 then -q else q

/-! ## `parseFloat` model

JS `parseFloat` skips leading whitespace, then reads the longest prefix of
the form `[+-]? (digits [. digits*] | . digits+) ([eE][+-]?digits)?`; if no
digits are read the result is `NaN` (here `none`).  The `Infinity` literal
is modelled as `none` (never produced by the engine's data paths). -/

def takeDigits (cs : List Char) : List Char × List Char :=
  (cs.takeWhile isDigitChar, cs.dropWhile isDigitChar)

/-- Parse an optional exponent part; returns the exponent (0 when absent,
matching `parseFloat`'s behaviour of not consuming a malformed exponent). -/
def parseExponent (cs : List Char) : ℤ :=
  match cs with
  | 'e' :: rest | 'E' :: rest =>
    match rest with
    | '+' :: ds => (if (takeDigits ds).1 = [] then 0 else (digitsVal (takeDigits ds).1 : ℤ))
    | '-' :: ds => (if (takeDigits ds).1 = [] then 0 else -(digitsVal (takeDigits ds).1 : ℤ))
    | ds => (if (takeDigits ds).1 = [] then 0 else (digitsVal (takeDigits ds).1 : ℤ))
  | _ => 0

def tenPow (e : ℤ) : ℚ :=
  if e ≥ 0 then ((10 : ℚ) ^ e.toNat) else 1 / ((10 : ℚ) ^ (-e).toNat)

/-- Value of `intPart . fracPart × 10^exp`, all ℚ-exact. -/
def floatVal (intPart fracPart : List Char) (exp : ℤ) : ℚ :=
  ((digitsVal intPart : ℚ) + (digitsVal fracPart : ℚ) / tenPow (fracPart.length : ℤ))
    * tenPow exp

def jsParseFloatCore (cs : List Char) : Option ℚ :=
  let (sign, rest) :=
    match cs with
    | '-' :: r => ((-1 : ℚ), r)
    | '+' :: r => ((1 : ℚ), r)
    | r => ((1 : ℚ), r)
  let (ip, r1) := takeDigits rest
  match r1 with
  | '.' :: r2 =>
    let (fp, r3) := takeDigits r2
    if ip = [] ∧ fp = [] then none
    else some (sign * floatVal ip fp (parseExponent r3))
  | _ =>
    if ip = [] then none
    else some (sign * floatVal ip [] (parseExponent r1))

def jsParseFloat (s : String) : Option ℚ :=
  jsParseFloatCore (s.toList.dropWhile isWsChar)

/-! ## Cells

A table cell as produced by the (excluded) file decoder: JS `null`/
`undefined`, a string, or a number.  The source treats `null` and
`undefined` identically in every code path of the core, so both are
`Cell.null`. -/

inductive Cell where
  | null : Cell
  | str : String → Cell
  | num : ℚ → Cell
deriving DecidableEq, Repr

/-- JS `String(v)` for a cell.  Number-to-string is only ever reached on
integral values in the embedded pipeline; it is modelled for integers and
falls back to the reduced fraction display otherwise. -/
def cellStr : Cell → String
  | Cell.null => "null"
  | Cell.str s => s
  | Cell.num q => if q.den = 1 then toString q.num else toString q

/-- JS `String(v || '')` (the falsy cell values are `null`, `''` and `0`). -/
def cellStrOr : Cell → String
  | Cell.null => ""
  | Cell.str s => s
  | Cell.num q => if q = 0 then "" else cellStr (Cell.num q)

/-- JS truthiness of a cell. -/
def cellTruthy : Cell → Bool
  | Cell.null => false
  | Cell.str s => s ≠ ""
  | Cell.num q => q ≠ 0

/-- helpers.js `isEmpty` restricted to cell values: null/undefined, or a
string that trims to empty.  (Numbers are never empty.) -/
def isEmptyCell : Cell → Bool
  | Cell.null => true
  | Cell.str s => jsTrim s = ""
  | Cell.num _ => false

/-! ## helpers.js : parseNumber -/

/-- `^(Rp\.?|IDR|\$|USD|EUR|€)\s*` (case-insensitive) — returns the string
with the matched currency marker stripped. -/
def stripCurrency (cs : List Char) : List Char :=
  let low := cs.map lowerChar
  let strip (n : Nat) : List Char := (cs.drop n).dropWhile isWsChar
  if startsWithList ['r', 'p', '.'] low then strip 3
  else if startsWithList ['r', 'p'] low then strip 2
  else if startsWithList ['i', 'd', 'r'] low then strip 3
  else if startsWithList ['$'] low then strip 1
  else if startsWithList ['u', 's', 'd'] low then strip 3
  else if startsWithList ['e', 'u', 'r'] low then strip 3
  else if startsWithList ['€'] low then strip 1
  else cs

/-- `/^\d{1,3}(\.\d{3})*(,\d+)?$/` — Indonesian digit grouping. -/
def indoGroups : List Char → Bool
  | '.' :: a :: b :: c :: rest =>
    isDigitChar a ∧ isDigitChar b ∧ isDigitChar c ∧ indoGroups rest
  | ',' :: rest => rest ≠ [] ∧ rest.all isDigitChar
  | [] => true
  | _ => false

def hasIndonesiaFormat (cs : List Char) : Bool :=
  let (ds, rest) := takeDigits cs
  1 ≤ ds.length ∧ ds.length ≤ 3 ∧ indoGroups rest

/-- `/^\d{1,3}(,\d{3})*(\.\d+)?$/` — US digit grouping. -/
def usGroups : List Char → Bool
  | ',' :: a :: b :: c :: rest =>
    isDigitChar a ∧ isDigitChar b ∧ isDigitChar c ∧ usGroups rest
  | '.' :: rest => rest ≠ [] ∧ rest.all isDigitChar
  | [] => true
  | _ => false

def hasUSFormat (cs : List Char) : Bool :=
  let (ds, rest) := takeDigits cs
  1 ≤ ds.length ∧ ds.length ≤ 3 ∧ usGroups rest

/-- helpers.js `parseNumber` on a string value (the string branch of the
source; `parseNumberCell` below adds the null/number branches). -/
def parseNumberStr (s : String) : Option ℚ :=
  let str := jsTrimList s.toList
  let str := stripCurrency str
  let str :=
    if hasIndonesiaFormat str then
      (str.filter (· ≠ '.')).map (fun c => if c = ',' then '.' else c)
    else if hasUSFormat str then
      str.filter (· ≠ ',')
    else str
  jsParseFloatCore (str.dropWhile isWsChar)

/-- helpers.js `parseNumber` on a cell value. -/
def parseNumberCell : Cell → Option ℚ
  | Cell.null => none
  | Cell.str s => if s = "" then none else parseNumberStr s
  | Cell.num q => some q

/-! ## constants.js : province table, patterns as decidable predicates -/

def INDONESIA_PROVINCE_CODES : List (String × String) :=
  [("11", "Aceh"), ("12", "Sumatera Utara"), ("13", "Sumatera Barat"),
   ("14", "Riau"), ("15", "Jambi"), ("16", "Sumatera Selatan"),
   ("17", "Bengkulu"), ("18", "Lampung"), ("19", "Kepulauan Bangka Belitung"),
   ("21", "Kepulauan Riau"), ("31", "DKI Jakarta"), ("32", "Jawa Barat"),
   ("33", "Jawa Tengah"), ("34", "DI Yogyakarta"), ("35", "Jawa Timur"),
   ("36", "Banten"), ("51", "Bali"), ("52", "Nusa Tenggara Barat"),
   ("53", "Nusa Tenggara Timur"), ("61", "Kalimantan Barat"),
   ("62", "Kalimantan Tengah"), ("63", "Kalimantan Selatan"),
   ("64", "Kalimantan Timur"), ("65", "Kalimantan Utara"),
   ("71", "Sulawesi Utara"), ("72", "Sulawesi Tengah"),
   ("73", "Sulawesi Selatan"), ("74", "Sulawesi Tenggara"),
   ("75", "Gorontalo"), ("76", "Sulawesi Barat"), ("81", "Maluku"),
   ("82", "Maluku Utara"), ("91", "Papua"), ("92", "Papua Barat"),
   ("93", "Papua Selatan"), ("94", "Papua Tengah"),
   ("95", "Papua Pegunungan"), ("96", "Papua Barat Daya")]

def isAlphaChar (c : Char) : Bool :=
  ('a' ≤ c ∧ c ≤ 'z') ∨ ('A' ≤ c ∧ c ≤ 'Z')

def headNonZero : List Char → Bool
  | c :: _ => c ≠ '0'
  | [] => false

def headIsDigit : List Char → Bool
  | c :: _ => isDigitChar c
  | [] => false

/-- `PATTERNS.NIK = /^[1-9]\d{15}$/`. -/
def patNIK (cs : List Char) : Bool :=
  cs.length = 16 ∧ cs.all isDigitChar ∧ headNonZero cs

/-- `PATTERNS.NPWP = /^\d{2}\.\d{3}\.\d{3}\.\d{1}-\d{3}\.\d{3}$/`. -/
def patNPWP (cs : List Char) : Bool :=
  match cs with
  | [a1, a2, '.', b1, b2, b3, '.', c1, c2, c3, '.', d1, '-', e1, e2, e3, '.', f1, f2, f3] =>
    [a1, a2, b1, b2, b3, c1, c2, c3, d1, e1, e2, e3, f1, f2, f3].all isDigitChar
  | _ => false

/-- `PATTERNS.NPWP_NEW = /^\d{16}$/`. -/
def patNPWPNew (cs : List Char) : Bool :=
  cs.length = 16 ∧ cs.all isDigitChar

/-- `PATTERNS.PHONE_ID = /^(\+62|62|0)8[1-9][0-9]{7,11}$/` (tried on the
string with `[\s\-()]` already stripped). -/
def patPhoneID (cs : List Char) : Bool :=
  let tailOk (r : List Char) : Bool :=
    match r with
    | '8' :: d :: ds =>
      ('1' ≤ d ∧ d ≤ '9') ∧ ds.all isDigitChar ∧ 7 ≤ ds.length ∧ ds.length ≤ 11
    | _ => false
  (startsWithList ['+', '6', '2'] cs ∧ tailOk (cs.drop 3)) ∨
  (startsWithList ['6', '2'] cs ∧ tailOk (cs.drop 2)) ∨
  (startsWithList ['0'] cs ∧ tailOk (cs.drop 1))

def isLocalChar (c : Char) : Bool :=
  isAlphaChar c ∨ isDigitChar c ∨ c = '.' ∨ c = '_' ∨ c = '%' ∨ c = '+' ∨ c = '-'

def isDomainChar (c : Char) : Bool :=
  isAlphaChar c ∨ isDigitChar c ∨ c = '.' ∨ c = '-'

/-- Domain side of `PATTERNS.EMAIL`: `[a-zA-Z0-9.-]+\.[a-zA-Z]{2,}$`.
Since the top-level label may not contain a dot, the regex matches iff the
split at the last dot works. -/
def emailDomainOk (d : List Char) : Bool :=
  let revD := d.reverse
  let tldRev := revD.takeWhile (· ≠ '.')
  match revD.dropWhile (· ≠ '.') with
  | '.' :: preRev =>
    preRev ≠ [] ∧ preRev.all isDomainChar ∧ 2 ≤ tldRev.length ∧ tldRev.all isAlphaChar
  | _ => false

/-- `PATTERNS.EMAIL = /^[a-zA-Z0-9._%+-]+@[a-zA-Z0-9.-]+\.[a-zA-Z]{2,}$/`. -/
def patEmail (cs : List Char) : Bool :=
  let localPart := cs.takeWhile (· ≠ '@')
  match cs.dropWhile (· ≠ '@') with
  | '@' :: domain => localPart ≠ [] ∧ localPart.all isLocalChar ∧ emailDomainOk domain
  | _ => false

/-! ## helpers.js : domain validators -/

/-- Result object of `validateNIK`.  The source nests the success fields
under `data`; they are flattened here (`data.province` → `province`, …). -/
structure NIKResult where
  valid : Bool
  error : Option String := none
  province : Option String := none
  provinceCode : Option String := none
  birthDate : Option String := none
  gender : Option String := none
deriving DecidableEq, Repr

def nikInvalid (e : String) : NIKResult := { valid := false, error := some e }

def pad2 (n : Nat) : String :=
  if n < 10 then "0" ++ toString n else toString n

/-- helpers.js `validateNIK`.  Note the source builds the birth date as the
template string `…/19${year}` where `year = parseInt(digits 11-12)`, so a
two-digit year below 10 produces a three-character year ("195" from "05"). -/
def validateNIK (nik : Cell) : NIKResult :=
  if ¬cellTruthy nik then nikInvalid "NIK kosong"
  else
    let nikStr := (cellStr nik).toList.filter isDigitChar
    if nikStr.length ≠ 16 then nikInvalid "NIK harus 16 digit"
    else
      let provinceCode := (nikStr.take 2).asString
      match INDONESIA_PROVINCE_CODES.lookup provinceCode with
      | none => nikInvalid ("Kode provinsi " ++ provinceCode ++ " tidak valid")
      | some provName =>
        let rawDay := digitsVal ((nikStr.drop 6).take 2)
        let month := digitsVal ((nikStr.drop 8).take 2)
        let year := digitsVal ((nikStr.drop 10).take 2)
        let day := if rawDay > 40 then rawDay - 40 else rawDay
        if day < 1 ∨ day > 31 ∨ month < 1 ∨ month > 12 then
          nikInvalid "Tanggal lahir dalam NIK tidak valid"
        else
          { valid := true,
            province := some provName,
            provinceCode := some provinceCode,
            birthDate := some (pad2 day ++ "/" ++ pad2 month ++ "/19" ++ toString year),
            gender := some (if rawDay > 40 then "Perempuan" else "Laki-laki") }

structure ValidResult where
  valid : Bool
  error : Option String := none
deriving DecidableEq, Repr

/-- helpers.js `validateNPWP` (intentionally loose: digit count only). -/
def validateNPWP (npwp : Cell) : ValidResult :=
  if ¬cellTruthy npwp then { valid := false, error := some "NPWP kosong" }
  else
    let npwpStr := (cellStr npwp).toList.filter isDigitChar
    if npwpStr.length ≠ 15 ∧ npwpStr.length ≠ 16 then
      { valid := false, error := some "NPWP harus 15 atau 16 digit" }
    else if ¬headIsDigit npwpStr then
      { valid := false, error := some "Format NPWP tidak valid" }
    else { valid := true }

/-- helpers.js `validateEmail`. -/
def validateEmail (email : Cell) : ValidResult :=
  if ¬cellTruthy email then { valid := false, error := some "Email kosong" }
  else
    let ok := patEmail (jsTrimList (cellStr email).toList)
    { valid := ok, error := if ok then none else some "Format email tidak valid" }

/-- JS `String(phone).replace(/[\s\-()]/g, '')`. -/
def stripPhoneChars (s : String) : List Char :=
  s.toList.filter (fun c => ¬(isWsChar c ∨ c = '-' ∨ c = '(' ∨ c = ')'))

/-- helpers.js `validatePhoneID`. -/
def validatePhoneID (phone : Cell) : ValidResult :=
  if ¬cellTruthy phone then
    { valid := false, error := some "Nomor telepon kosong" }
  else
    let ok := patPhoneID (stripPhoneChars (cellStr phone))
    { valid := ok, error := if ok then none else some "Format nomor telepon tidak valid" }

/-- helpers.js `normalizePhoneID`: canonical `+62…` form or `none`. -/
def normalizePhoneID (phone : Cell) : Option String :=
  if ¬cellTruthy phone then none
  else
    let p := stripPhoneChars (cellStr phone)
    if startsWithList ['0', '8'] p then some (('+' :: '6' :: '2' :: p.drop 1).asString)
    else if startsWithList ['6', '2'] p then some (('+' :: p).asString)
    else if ¬startsWithList ['+', '6', '2'] p then none
    else some p.asString

/-! ## Remaining value patterns used by the type detector -/

def isMoneyTailChar (c : Char) : Bool := isDigitChar c ∨ c = '.' ∨ c = ','

def moneyTail (r : List Char) : Bool := r ≠ [] ∧ r.all isMoneyTailChar

def wsThenMoneyTail : List Char → Bool
  | w :: rr => isWsChar w ∧ moneyTail rr
  | [] => false

def idrAfterOptDot (r2 : List Char) : Bool :=
  moneyTail r2 ∨ wsThenMoneyTail r2

def idrSkipDot : List Char → Bool
  | '.' :: rr => idrAfterOptDot rr
  | _ => false

/-- After the `Rp` marker: `\.?\s?[\d.,]+$` (with the regex's backtracking:
both consuming and skipping each optional token are tried). -/
def idrAfterRp (r : List Char) : Bool :=
  idrAfterOptDot r ∨ idrSkipDot r

/-- `PATTERNS.CURRENCY_IDR = /^Rp\.?\s?[\d.,]+$/i`. -/
def patCurrencyIDR (cs : List Char) : Bool :=
  let low := cs.map lowerChar
  startsWithList ['r', 'p'] low ∧ idrAfterRp (low.drop 2)

/-- `PATTERNS.CURRENCY_USD = /^\$[\d.,]+$/`. -/
def patCurrencyUSD (cs : List Char) : Bool :=
  match cs with
  | '$' :: rest => moneyTail rest
  | _ => false

def percentTail : List Char → Bool
  | ['%'] => true
  | c :: r2 =>
    (c = '.' ∨ c = ',') ∧ (let (d2, r3) := takeDigits r2; d2 ≠ [] ∧ r3 = ['%'])
  | [] => false

/-- `PATTERNS.PERCENTAGE = /^-?\d+([.,]\d+)?%$/`. -/
def patPercentage (cs : List Char) : Bool :=
  let cs1 := match cs with | '-' :: r => r | r => r
  let (d1, r1) := takeDigits cs1
  d1 ≠ [] ∧ percentTail r1

def isHostChar (c : Char) : Bool :=
  isDigitChar c ∨ ('a' ≤ c ∧ c ≤ 'z') ∨ c = '.' ∨ c = '-'

def isTldChar (c : Char) : Bool := ('a' ≤ c ∧ c ≤ 'z') ∨ c = '.'

def isUrlTailChar (c : Char) : Bool :=
  c = '/' ∨ c = '_' ∨ isAlphaChar c ∨ isDigitChar c ∨ c = ' ' ∨ c = '.' ∨ c = '-'

def urlAfterDot (r : List Char) : Bool :=
  (List.range' 2 5).any fun k =>
    k ≤ r.length ∧ (r.take k).all isTldChar ∧ (r.drop k).all isUrlTailChar

def dotThenUrlTail : List Char → Bool
  | '.' :: rest => urlAfterDot rest
  | _ => false

/-- `PATTERNS.URL = /^(https?:\/\/)?([\da-z.-]+)\.([a-z.]{2,6})([\/\w .-]*)*\/?$/`
(the trailing `([\/\w .-]*)*\/?` collapses to "any string over that class"). -/
def patURL (cs : List Char) : Bool :=
  let body :=
    if startsWithList ['h', 't', 't', 'p', ':', '/', '/'] cs then cs.drop 7
    else if startsWithList ['h', 't', 't', 'p', 's', ':', '/', '/'] cs then cs.drop 8
    else cs
  (List.range body.length).any fun p =>
    1 ≤ p ∧ (body.take p).all isHostChar ∧ dotThenUrlTail (body.drop p)

/-- `(0?[1-9]|[12][0-9]|3[01])` — day segment of the date regexes. -/
def dayAlt : List Char → Bool
  | [c] => '1' ≤ c ∧ c ≤ '9'
  | [a, b] =>
    (a = '0' ∧ '1' ≤ b ∧ b ≤ '9') ∨ ((a = '1' ∨ a = '2') ∧ isDigitChar b) ∨
    (a = '3' ∧ (b = '0' ∨ b = '1'))
  | _ => false

/-- `(0?[1-9]|1[012])` — month segment of the date regexes. -/
def monthAlt : List Char → Bool
  | [c] => '1' ≤ c ∧ c ≤ '9'
  | [a, b] => (a = '0' ∧ '1' ≤ b ∧ b ≤ '9') ∨ (a = '1' ∧ (b = '0' ∨ b = '1' ∨ b = '2'))
  | _ => false

/-- `(\d{4}|\d{2})` — year segment of the date regexes. -/
def yearAlt (s : List Char) : Bool :=
  (s.length = 4 ∨ s.length = 2) ∧ s.all isDigitChar

/-- Split on the separator class `[\/\-]` of the date regexes. -/
def splitSeps : List Char → List (List Char)
  | [] => [[]]
  | c :: rest =>
    let r := splitSeps rest
    if c = '/' ∨ c = '-' then [] :: r
    else match r with
      | h :: t => (c :: h) :: t
      | [] => [[c]]

/-- `PATTERNS.DATE_DMY`. -/
def patDateDMY (cs : List Char) : Bool :=
  match splitSeps cs with
  | [d, m, y] => dayAlt d ∧ monthAlt m ∧ yearAlt y
  | _ => false

/-- `PATTERNS.DATE_YMD`. -/
def patDateYMD (cs : List Char) : Bool :=
  match splitSeps cs with
  | [y, m, d] => yearAlt y ∧ monthAlt m ∧ dayAlt d
  | _ => false

def monthNamesID : List String :=
  ["januari", "februari", "maret", "april", "mei", "juni", "juli",
   "agustus", "september", "oktober", "november", "desember"]

/-- `PATTERNS.DATE_INDONESIA = /^\d{1,2}\s+(Januari|…|Desember)\s+\d{4}$/i`. -/
def patDateIndonesia (cs : List Char) : Bool :=
  let (d, r1) := takeDigits cs
  1 ≤ d.length ∧ d.length ≤ 2 ∧
    (let ws1 := r1.takeWhile isWsChar
     let rest := r1.dropWhile isWsChar
     ws1 ≠ [] ∧
       (let mn := rest.takeWhile isAlphaChar
        let r2 := rest.drop mn.length
        monthNamesID.contains (mn.map lowerChar).asString ∧
          (let ws2 := r2.takeWhile isWsChar
           let r3 := r2.dropWhile isWsChar
           ws2 ≠ [] ∧ r3.length = 4 ∧ r3.all isDigitChar)))

/-- `PATTERNS.DATETIME = /^\d{4}-\d{2}-\d{2}[T\s]\d{2}:\d{2}(:\d{2})?/`
(prefix match: the regex has no `$` anchor). -/
def patDateTime (cs : List Char) : Bool :=
  match cs with
  | y1 :: y2 :: y3 :: y4 :: '-' :: m1 :: m2 :: '-' :: d1 :: d2 :: t :: h1 :: h2 :: ':' :: n1 :: n2 :: _ =>
    [y1, y2, y3, y4, m1, m2, d1, d2, h1, h2, n1, n2].all isDigitChar ∧
      (t = 'T' ∨ isWsChar t)
  | _ => false

def boolWords : List String :=
  ["true", "false", "yes", "no", "ya", "tidak", "1", "0", "aktif", "nonaktif"]

/-- `/^[\d.,\-+\s]+$/` — the number-shape guard of the NUMBER branch. -/
def patNumberChars (cs : List Char) : Bool :=
  cs ≠ [] ∧ cs.all fun c =>
    isDigitChar c ∨ c = '.' ∨ c = ',' ∨ c = '-' ∨ c = '+' ∨ isWsChar c

/-- Header keyword hint for money columns:
`headerLower.match(/(harga|total|gaji|nominal|rupiah|idr|bayar|biaya|tarif)/i)`. -/
def moneyHint (headerLower : String) : Bool :=
  containsAny ["harga", "total", "gaji", "nominal", "rupiah", "idr", "bayar", "biaya", "tarif"]
    headerLower

/-- Header keyword hint for date columns:
`headerHint.match(/(tanggal|date|tgl|created|updated)/i)`. -/
def dateHint (headerLower : String) : Bool :=
  containsAny ["tanggal", "date", "tgl", "created", "updated"] headerLower

/-! ## helpers.js : parseDate (model)

`parseDate` tries seven date-fns `parse` formats in order, then an
Indonesian "<day> <month name> <year>" regex with a month lookup table,
then the host `Date` constructor.  The date-fns layer is modelled as
lenient-width numeric fields (date-fns accepts 1–n digits for an n-wide
token) with calendar validation; the final `new Date(str)` fallback (full
host date parsing) is modelled as a parse failure — no claim below
concerns a value that reaches it.  Times are dropped: every parsed shape
is a plain calendar date. -/

structure JDate where
  year : Nat
  month : Nat
  day : Nat
deriving DecidableEq, Repr

def isLeap (y : Nat) : Bool := (y % 4 = 0 ∧ y % 100 ≠ 0) ∨ y % 400 = 0

def daysInMonth (y m : Nat) : Nat :=
  if m = 2 then (if isLeap y then 29 else 28)
  else if m = 4 ∨ m = 6 ∨ m = 9 ∨ m = 11 then 30
  else 31

def validYMD (y m d : Nat) : Bool :=
  1 ≤ m ∧ m ≤ 12 ∧ 1 ≤ d ∧ d ≤ daysInMonth y m

/-- Three numeric fields joined by a literal separator, consuming the whole
string; returns the digit groups. -/
def threeFields (sep : Char) (cs : List Char) : Option (List Char × List Char × List Char) :=
  let (a, r1) := takeDigits cs
  match r1 with
  | c :: r2 =>
    if c = sep then
      let (b, r3) := takeDigits r2
      match r3 with
      | c2 :: r4 =>
        if c2 = sep then
          let (g, r5) := takeDigits r4
          if a ≠ [] ∧ b ≠ [] ∧ g ≠ [] ∧ r5 = [] then some (a, b, g) else none
        else none
      | [] => none
    else none
  | [] => none

def widthOk (w : Nat) (g : List Char) : Bool := 1 ≤ g.length ∧ g.length ≤ w

def mkValid (y m d : Nat) : Option JDate :=
  if validYMD y m d then some ⟨y, m, d⟩ else none

/-- date-fns `parse` with a `yyyy{sep}MM{sep}dd`-shaped format. -/
def fmtYMD (sep : Char) (cs : List Char) : Option JDate :=
  match threeFields sep cs with
  | some (a, b, g) =>
    if widthOk 4 a ∧ widthOk 2 b ∧ widthOk 2 g then
      mkValid (digitsVal a) (digitsVal b) (digitsVal g)
    else none
  | none => none

/-- date-fns `parse` with a `dd{sep}MM{sep}yyyy`-shaped format. -/
def fmtDMY (sep : Char) (cs : List Char) : Option JDate :=
  match threeFields sep cs with
  | some (a, b, g) =>
    if widthOk 2 a ∧ widthOk 2 b ∧ widthOk 4 g then
      mkValid (digitsVal g) (digitsVal b) (digitsVal a)
    else none
  | none => none

/-- date-fns `parse` with `MM/dd/yyyy`. -/
def fmtMDY (cs : List Char) : Option JDate :=
  match threeFields '/' cs with
  | some (a, b, g) =>
    if widthOk 2 a ∧ widthOk 2 b ∧ widthOk 4 g then
      mkValid (digitsVal g) (digitsVal a) (digitsVal b)
    else none
  | none => none

def INDONESIAN_MONTHS : List (String × Nat) :=
  [("januari", 1), ("jan", 1), ("februari", 2), ("feb", 2), ("maret", 3),
   ("mar", 3), ("april", 4), ("apr", 4), ("mei", 5), ("juni", 6), ("jun", 6),
   ("juli", 7), ("jul", 7), ("agustus", 8), ("agu", 8), ("ags", 8),
   ("september", 9), ("sep", 9), ("sept", 9), ("oktober", 10), ("okt", 10),
   ("november", 11), ("nov", 11), ("desember", 12), ("des", 12)]

/-- Split "<digits> <letters> <digits>" (whitespace-separated). -/
def dayNameYear (cs : List Char) : Option (List Char × List Char × List Char) :=
  let (d, r1) := takeDigits cs
  let ws1 := r1.takeWhile isWsChar
  let rest := r1.dropWhile isWsChar
  let mn := rest.takeWhile isAlphaChar
  let r2 := rest.drop mn.length
  let ws2 := r2.takeWhile isWsChar
  let r3 := r2.dropWhile isWsChar
  if d ≠ [] ∧ ws1 ≠ [] ∧ mn ≠ [] ∧ ws2 ≠ [] ∧ r3 ≠ [] ∧ r3.all isDigitChar then
    some (d, mn, r3)
  else none

/-- date-fns `parse` with `d MMMM yyyy` / `dd MMMM yyyy` (locale `id`,
full month names, case-insensitive). -/
def fmtDayMonthNameYear (cs : List Char) : Option JDate :=
  match dayNameYear cs with
  | some (d, mn, y) =>
    if widthOk 2 d ∧ widthOk 4 y then
      match (monthNamesID.indexOf? (mn.map lowerChar).asString) with
      | some i => mkValid (digitsVal y) (i + 1) (digitsVal d)
      | none => none
    else none
  | none => none

/-- JS `new Date(year, month0, day)` for the Indonesian-regex fallback:
the constructor normalises an out-of-range day by rolling into adjacent
months (day 0 borrows from the previous month).  `fuel` bounds the carry
loop; the regex admits at most two day digits, so 12 steps suffice. -/
def jsDateNorm : Nat → Nat → Nat → Nat → JDate
  | 0, y, m, d => ⟨y, m, d⟩
  | fuel + 1, y, m, d =>
    if d = 0 then
      if m = 1 then jsDateNorm fuel (y - 1) 12 (daysInMonth (y - 1) 12)
      else jsDateNorm fuel y (m - 1) (daysInMonth y (m - 1))
    else if d > daysInMonth y m then
      if m = 12 then jsDateNorm fuel (y + 1) 1 (d - daysInMonth y m)
      else jsDateNorm fuel y (m + 1) (d - daysInMonth y m)
    else ⟨y, m, d⟩

/-- The `^(\d{1,2})\s+([a-zA-Z]+)\s+(\d{4})$` fallback with the
`INDONESIAN_MONTHS` lookup (abbreviations included), built through the
overflowing JS `Date` constructor. -/
def indoDateFallback (cs : List Char) : Option JDate :=
  match dayNameYear cs with
  | some (d, mn, y) =>
    if widthOk 2 d ∧ y.length = 4 then
      match INDONESIAN_MONTHS.lookup (mn.map lowerChar).asString with
      | some monthNum => some (jsDateNorm 12 (digitsVal y) monthNum (digitsVal d))
      | none => none
    else none
  | none => none

/-- helpers.js `parseDate` (model, see the section comment). -/
def parseDate (value : Cell) : Option JDate :=
  if ¬cellTruthy value then none
  else
    let cs := jsTrimList (cellStr value).toList
    match fmtYMD '-' cs with
    | some d => some d
    | none =>
    match fmtDMY '/' cs with
    | some d => some d
    | none =>
    match fmtDMY '-' cs with
    | some d => some d
    | none =>
    match fmtMDY cs with
    | some d => some d
    | none =>
    match fmtYMD '/' cs with
    | some d => some d
    | none =>
    match fmtDayMonthNameYear cs with
    | some d => some d
    | none => indoDateFallback cs

/-! ## Analyzer : single-value and column type detection -/

/-- The NUMBER/STRING tail of the cascade: `parseNumber` plus the
number-shape guard, integer when `Number.isInteger`. -/
def numericOrString (strValue : String) : String :=
  match parseNumberStr strValue with
  | some q =>
    if patNumberChars strValue.toList then (if q.den = 1 then "integer" else "float")
    else "string"
  | none => "string"

/-- The cascade of `detectValueType` on the trimmed string form of a
non-empty value. -/
def detectValueTypeStr (strValue : String) (headerHint : String) : String :=
  if patNIK (keepDigits strValue).toList ∧ (validateNIK (Cell.str strValue)).valid then "nik"
  else if patNPWP strValue.toList ∨ patNPWPNew (keepDigits strValue).toList then "npwp"
  else if patPhoneID (stripPhoneChars strValue) then "phone"
  else if patCurrencyIDR strValue.toList ∨
      (moneyHint headerHint ∧ (parseNumberStr strValue).isSome) then "currency"
  else if patCurrencyUSD strValue.toList then "currency"
  else if patEmail strValue.toList then "email"
  else if patURL strValue.toList then "url"
  else if patPercentage strValue.toList then "percentage"
  else if (patDateDMY strValue.toList ∨ patDateYMD strValue.toList ∨
      patDateIndonesia strValue.toList ∨ dateHint headerHint) ∧
      (parseDate (Cell.str strValue)).isSome then "date"
  else if patDateTime strValue.toList then "datetime"
  else if boolWords.contains (jsLower strValue) then "boolean"
  else numericOrString strValue

/-- `DataAnalyzer.detectValueType`: ordered first-match-wins cascade over
the patterns, with header-name hints.  Returns the `DATA_TYPES` code. -/
def detectValueType (value : Cell) (headerHint : String) : String :=
  if isEmptyCell value then "empty"
  else detectValueTypeStr (jsTrim (cellStr value)) headerHint

def isNumericType (t : String) : Bool :=
  t = "number" ∨ t = "integer" ∨ t = "float" ∨ t = "currency" ∨ t = "percentage"

def isIdentifierType (t : String) : Bool :=
  t = "nik" ∨ t = "npwp" ∨ t = "email" ∨ t = "phone"

/-- The `typeCounts` object: an insertion-ordered tally (JS object keys
enumerate in insertion order). -/
def bumpTally : List (String × Nat) → String → List (String × Nat)
  | [], t => [(t, 1)]
  | (k, c) :: rest, t =>
    if k = t then (k, c + 1) :: rest else (k, c) :: bumpTally rest t

def tallies (ts : List String) : List (String × Nat) :=
  ts.foldl bumpTally []

/-- The dominant-type loop: first strict maximum over the entries, with the
source's initial accumulator (`DATA_TYPES.STRING`, count 0). -/
def pickDominant (entries : List (String × Nat)) : String × Nat :=
  entries.foldl (fun acc e => if e.2 > acc.2 then e else acc) ("string", 0)

structure TypeDetection where
  type : String
  confidence : ℤ
  distribution : List (String × Nat)
deriving DecidableEq, Repr

/-- `DataAnalyzer.detectColumnType` (callers pass the non-empty values). -/
def detectColumnType (header : String) (values : List Cell) : TypeDetection :=
  if values.length = 0 then ⟨"empty", 100, []⟩
  else
    let headerLower := jsLower header
    let typeCounts := tallies (values.map fun v => detectValueType v headerLower)
    let dom := pickDominant typeCounts
    let confidence := jsRound ((dom.2 : ℚ) / (values.length : ℚ) * 100)
    let dominantType :=
      if typeCounts.length > 2 ∧ confidence < 70 then "mixed" else dom.1
    ⟨dominantType, confidence, typeCounts⟩

/-- One per-column analysis record (`typeDetails` of the source, which
carries per-type side data, is presentational and omitted; the
`distribution` tally is kept). -/
structure ColumnAnalysis where
  header : String
  detectedType : String
  confidence : ℤ
  distribution : List (String × Nat)
  totalValues : Nat
  nonEmptyCount : Nat
  emptyCount : Nat
  uniqueCount : Nat
  fillRate : ℚ
  sampleValues : List Cell
  isNumeric : Bool
  isDate : Bool
  isIdentifier : Bool
deriving DecidableEq, Repr

/-- `DataAnalyzer.analyzeColumn`. -/
def analyzeColumn (header : String) (values : List Cell) : ColumnAnalysis :=
  let nonEmptyValues := values.filter fun v => ¬isEmptyCell v
  let typeDetection := detectColumnType header nonEmptyValues
  let uniqueCount := ((values.map fun v => jsTrim (jsLower (cellStr v))).dedup).length
  let fillRate := (nonEmptyValues.length : ℚ) / (values.length : ℚ) * 100
  { header := header,
    detectedType := typeDetection.type,
    confidence := typeDetection.confidence,
    distribution := typeDetection.distribution,
    totalValues := values.length,
    nonEmptyCount := nonEmptyValues.length,
    emptyCount := values.length - nonEmptyValues.length,
    uniqueCount := uniqueCount,
    fillRate := round2 fillRate,
    sampleValues := nonEmptyValues.take 5,
    isNumeric := isNumericType typeDetection.type,
    isDate := typeDetection.type = "date" ∨ typeDetection.type = "datetime",
    isIdentifier := isIdentifierType typeDetection.type }

/-- A table row: the JS row object, keyed by column name. -/
def RowObj : Type := List (String × Cell)

instance : DecidableEq RowObj := by unfold RowObj; exact inferInstance

/-- JS `row[header]` (`undefined` for a missing key is merged with `null`,
as the source treats the two identically). -/
def getF (row : RowObj) (h : String) : Cell :=
  (List.lookup h row).getD Cell.null

/-- `DataAnalyzer.analyzeColumns`, as the header-ordered list of records
(the source builds an object keyed by header, enumerated in this order). -/
def analyzeColumns (headers : List String) (rows : List RowObj) : List ColumnAnalysis :=
  headers.map fun h => analyzeColumn h (rows.map fun r => getF r h)

/-- `columnAnalysis[header]` on the list form. -/
def colLookup (cas : List ColumnAnalysis) (h : String) : ColumnAnalysis :=
  (cas.find? fun c => c.header = h).getD (analyzeColumn h [])

/-! ## Analyzer options (constructor defaults of `DataAnalyzer`) -/

structure AnalyzerOptions where
  deepAnalysis : Bool := true
  detectOutliers : Bool := true
  checkCalculations : Bool := true
  ppnRate : ℚ := 11/100
  outlierThreshold : ℚ := 3/2
  similarityThreshold : ℚ := 85/100
  maxRowsAnalyze : Nat := 10000
deriving DecidableEq, Repr

/-! ## Issues

The embedded issue record keeps every structured field any detector
attaches; the interpolated `message`/`fix`/`details` display strings are
omitted (see the header comment), except that the outlier reason — the
data content of the outlier message — is kept in `reason`. -/

structure Issue where
  type : String
  severity : String
  row : Option Nat := none
  column : Option String := none
  value : Option Cell := none
  originalRow : Option Nat := none
  expected : Option ℚ := none
  actual : Option ℚ := none
  suggestion : Option String := none
  similarity : Option ℤ := none
  reason : Option String := none
  autoFixable : Bool
deriving DecidableEq, Repr

/-- The row signature of the duplicate detector (and of the cleaner's
`removeDuplicates`): trimmed, lower-cased cell strings joined with `|`
in header order. -/
def rowSignature (headers : List String) (row : RowObj) : String :=
  String.intercalate "|" (headers.map fun h => jsLower (jsTrim (cellStrOr (getF row h))))

/-- `DataAnalyzer.detectDuplicates`, with the `seen` map as an association
list from signature to first-seen 0-based index. -/
def detectDuplicatesAux (headers : List String) :
    List RowObj → Nat → List (String × Nat) → List Issue
  | [], _, _ => []
  | row :: rest, i, seen =>
    let sig := rowSignature headers row
    match seen.lookup sig with
    | some first =>
      { type := "DUPLICATE", severity := "warning", row := some (i + 2),
        column := none, originalRow := some (first + 2), autoFixable := true } ::
        detectDuplicatesAux headers rest (i + 1) seen
    | none => detectDuplicatesAux headers rest (i + 1) ((sig, i) :: seen)

def detectDuplicates (rows : List RowObj) (headers : List String) : List Issue :=
  detectDuplicatesAux headers rows 0 []

/-- The emptiness test of `detectEmptyRows` / `removeEmptyRows`:
`val === null || val === undefined || String(val).trim() === ''`. -/
def blankVal (v : Cell) : Bool :=
  match v with
  | Cell.null => true
  | _ => jsTrim (cellStr v) = ""

/-- `DataAnalyzer.detectEmptyRows`. -/
def detectEmptyRows (rows : List RowObj) (headers : List String) : List Issue :=
  rows.enum.filterMap fun p =>
    if headers.all (fun h => blankVal (getF p.2 h)) then
      some { type := "EMPTY_ROW", severity := "info", row := some (p.1 + 2),
             column := none, autoFixable := true }
    else none

/-- `DataAnalyzer.detectFormatInconsistency` (one whole-column issue when
the dominant type is MIXED; the per-type sample map is presentational). -/
def detectFormatInconsistency (header : String) (colAnalysis : ColumnAnalysis) : List Issue :=
  if colAnalysis.detectedType = "mixed" then
    [{ type := "FORMAT_INCONSISTENT", severity := "warning", row := none,
       column := some header, autoFixable := false }]
  else []

/-- `DataAnalyzer.detectValidationErrors`: re-validate each non-empty value
of an identifier-typed column. -/
def detectValidationErrors (header : String) (values : List (Cell × Nat))
    (colAnalysis : ColumnAnalysis) : List Issue :=
  values.filterMap fun p =>
    if isEmptyCell p.1 then none
    else if colAnalysis.detectedType = "nik" then
      if ¬(validateNIK p.1).valid then
        some { type := "INVALID_NIK", severity := "error", row := some p.2,
               column := some header, value := some p.1, autoFixable := false }
      else none
    else if colAnalysis.detectedType = "npwp" then
      if ¬(validateNPWP p.1).valid then
        some { type := "INVALID_NPWP", severity := "error", row := some p.2,
               column := some header, value := some p.1, autoFixable := false }
      else none
    else if colAnalysis.detectedType = "email" then
      if ¬(validateEmail p.1).valid then
        some { type := "INVALID_EMAIL", severity := "error", row := some p.2,
               column := some header, value := some p.1, autoFixable := false }
      else none
    else if colAnalysis.detectedType = "phone" then
      if ¬(validatePhoneID p.1).valid then
        some { type := "INVALID_PHONE", severity := "warning", row := some p.2,
               column := some header, value := some p.1, autoFixable := true }
      else none
    else none

def hasDoubleSpace : List Char → Bool
  | a :: b :: rest => (isWsChar a ∧ isWsChar b) ∨ hasDoubleSpace (b :: rest)
  | _ => false

/-- `DataAnalyzer.detectWhitespaceIssues`: a leading/trailing-space issue
and, independently, a multiple-space issue per value. -/
def detectWhitespaceIssues (header : String) (values : List (Cell × Nat)) : List Issue :=
  values.bind fun p =>
    if isEmptyCell p.1 then []
    else
      let strValue := cellStr p.1
      (if strValue ≠ jsTrim strValue then
        [{ type := "WHITESPACE", severity := "info", row := some p.2,
           column := some header, value := some p.1, autoFixable := true }]
       else []) ++
      (if hasDoubleSpace strValue.toList then
        [{ type := "WHITESPACE", severity := "info", row := some p.2,
           column := some header, value := some p.1, autoFixable := true }]
       else [])

/-! ## helpers.js : detectOutliers (IQR method) -/

structure OutlierRec where
  index : Nat
  value : ℚ
  reason : String
deriving DecidableEq, Repr

def insertByVal (x : ℚ × Nat) : List (ℚ × Nat) → List (ℚ × Nat)
  | [] => [x]
  | y :: ys => if x.1 ≤ y.1 then x :: y :: ys else y :: insertByVal x ys

/-- Sort the (value, index) pairs by value (the JS
`sort((a, b) => a.value - b.value)`; only the sorted values are read, so
tie order is irrelevant). -/
def sortPairs (l : List (ℚ × Nat)) : List (ℚ × Nat) :=
  l.foldr insertByVal []

/-- helpers.js `detectOutliers`: parse, sort, Q1/Q3 at the floored quartile
indices, flag values strictly outside `[Q1 − k·IQR, Q3 + k·IQR]`. -/
def detectOutliers (values : List Cell) (threshold : ℚ) : List OutlierRec :=
  let numbers := values.enum.filterMap fun p =>
    (parseNumberCell p.2).map fun q => (q, p.1)
  if numbers.length < 4 then []
  else
    let sorted := sortPairs numbers
    let n := sorted.length
    let q1 := ((sorted.get? (n / 4)).getD (0, 0)).1
    let q3 := ((sorted.get? (3 * n / 4)).getD (0, 0)).1
    let iqr := q3 - q1
    let lowerBound := q1 - threshold * iqr
    let upperBound := q3 + threshold * iqr
    (numbers.filter fun p => p.1 < lowerBound ∨ p.1 > upperBound).map fun p =>
      ⟨p.2, p.1, if p.1 < lowerBound then "Terlalu kecil" else "Terlalu besar"⟩

/-- The (value, 2-based spreadsheet row) pairs handed to the per-column
detectors: `rows.map((row, idx) => ({value: row[header], rowIndex: idx + 2}))`. -/
def mkColVals (rows : List RowObj) (header : String) : List (Cell × Nat) :=
  rows.enum.map fun p => (getF p.2 header, p.1 + 2)

/-- `DataAnalyzer.detectOutlierIssues`: requires ≥ 10 parseable numeric
values, then maps `detectOutliers` records to OUTLIER issues. -/
def detectOutlierIssues (header : String) (values : List (Cell × Nat))
    (threshold : ℚ) : List Issue :=
  let numericValues := values.filterMap fun v => parseNumberCell v.1
  if numericValues.length < 10 then []
  else
    (detectOutliers (values.map (·.1)) threshold).map fun o =>
      let originalItem := (values.get? o.index).getD (Cell.null, 0)
      { type := "OUTLIER", severity := "warning", row := some originalItem.2,
        column := some header, value := some originalItem.1,
        reason := some o.reason, autoFixable := false }

/-! ## Analyzer : calculation checks -/

/-- `/a.?b/` substring containment (`.` standing for exactly one arbitrary
character when present). -/
def containsGap (a b : String) (s : String) : Bool :=
  let cs := s.toList
  let al := a.toList
  let bl := b.toList
  (List.range cs.length).any fun p =>
    startsWithList al (cs.drop p) ∧
      (startsWithList bl (cs.drop (p + al.length)) ∨
       startsWithList bl (cs.drop (p + al.length + 1)))

def qtyPred (h : String) : Bool := containsAny ["qty", "jumlah", "kuantitas", "quantity"] h

def pricePred (h : String) : Bool :=
  containsAny ["harga", "price"] h ∨ containsGap "unit" "price" h

def subtotalPred (h : String) : Bool := containsGap "sub" "total" h

def ppnPred (h : String) : Bool := containsAny ["ppn", "pajak", "tax", "vat"] h

/-- The analyzer's total-column test: `^total$` or `grand.?total|total.?harga`. -/
def totalPredAnalyzer (h : String) : Bool :=
  h = "total" ∨ containsGap "grand" "total" h ∨ containsGap "total" "harga" h

/-- The cleaner's total-column test additionally accepts `total.?bayar`. -/
def totalPredCleaner (h : String) : Bool :=
  h = "total" ∨ containsGap "grand" "total" h ∨ containsGap "total" "harga" h ∨
    containsGap "total" "bayar" h

/-- `headers.find(h => h.toLowerCase().match(…))`. -/
def findHeader (p : String → Bool) (headers : List String) : Option String :=
  headers.find? fun h => p (jsLower h)

/-- JS `row[col]` where `col` may be `undefined`. -/
def optGetF (row : RowObj) (oc : Option String) : Cell :=
  match oc with
  | some c => getF row c
  | none => Cell.null

/-- JS `a || b` on cell values. -/
def jsOr (a b : Cell) : Cell := if cellTruthy a then a else b

/-- The subtotal check of `detectCalculationErrors` for one row. -/
def subtotalIssues (qtyColumn priceColumn subtotalColumn : Option String)
    (row : RowObj) (rowNum : Nat) : List Issue :=
  match qtyColumn, priceColumn, subtotalColumn with
  | some qc, some pc, some sc =>
    match parseNumberCell (getF row qc), parseNumberCell (getF row pc),
        parseNumberCell (getF row sc) with
    | some qty, some price, some subtotal =>
      let expectedSubtotal := qty * price
      if jsAbs (expectedSubtotal - subtotal) > 1 then
        [{ type := "CALCULATION_ERROR", severity := "error", row := some rowNum,
           column := some sc, expected := some expectedSubtotal,
           actual := some subtotal, autoFixable := true }]
      else []
    | _, _, _ => []
  | _, _, _ => []

/-- The PPN check of `detectCalculationErrors` for one row.  Note the
source's guards: the tax cell must parse to a *positive* number, and the
base falls back from the subtotal cell to the price cell via JS `||`. -/
def ppnIssues (priceColumn subtotalColumn ppnColumn totalColumn : Option String)
    (ppnRate : ℚ) (row : RowObj) (rowNum : Nat) : List Issue :=
  match ppnColumn with
  | some pcol =>
    if subtotalColumn.isSome ∨ totalColumn.isSome then
      match parseNumberCell (jsOr (optGetF row subtotalColumn) (optGetF row priceColumn)),
          parseNumberCell (getF row pcol) with
      | some base, some ppn =>
        if ppn > 0 then
          let expectedPPN : ℚ := (jsRound (base * ppnRate) : ℤ)
          let tolerance := max (expectedPPN * (1/100)) 100
          if jsAbs (expectedPPN - ppn) > tolerance then
            [{ type := "PPN_ERROR", severity := "error", row := some rowNum,
               column := some pcol, expected := some expectedPPN,
               actual := some ppn, autoFixable := true }]
          else []
        else []
      | _, _ => []
    else []
  | none => []

/-- `DataAnalyzer.detectCalculationErrors`. -/
def detectCalculationErrors (rows : List RowObj) (headers : List String)
    (ppnRate : ℚ) : List Issue :=
  let qtyColumn := findHeader qtyPred headers
  let priceColumn := findHeader pricePred headers
  let subtotalColumn := findHeader subtotalPred headers
  let ppnColumn := findHeader ppnPred headers
  let totalColumn := findHeader totalPredAnalyzer headers
  rows.enum.bind fun p =>
    subtotalIssues qtyColumn priceColumn subtotalColumn p.2 (p.1 + 2) ++
      ppnIssues priceColumn subtotalColumn ppnColumn totalColumn ppnRate p.2 (p.1 + 2)

/-! ## helpers.js : string similarity (typo detection) -/

def levGo (c2 : Char) : List Char → List Nat → Nat → Nat → List Nat
  | c1 :: cs, up :: prevRest, diag, left =>
    let cur := if c1 = c2 then diag else 1 + min diag (min left up)
    cur :: levGo c2 cs prevRest up cur
  | _, _, _, _ => []

def levNextRow (c2 : Char) (s1 : List Char) (prev : List Nat) : List Nat :=
  let first := prev.headD 0 + 1
  first :: levGo c2 s1 (prev.drop 1) (prev.headD 0) first

/-- helpers.js `levenshteinDistance`, as the row-by-row construction of the
source's DP matrix (`s1` indexes the columns, `s2` the rows). -/
def levenshteinDistance (s1 s2 : List Char) : Nat :=
  (s2.foldl (fun row c2 => levNextRow c2 s1 row) (List.range (s1.length + 1))).getLastD 0

/-- helpers.js `stringSimilarity`: normalised Levenshtein similarity of the
lower-cased strings. -/
def stringSimilarity (str1 str2 : String) : ℚ :=
  if str1 = "" ∨ str2 = "" then 0
  else
    let s1 := (str1.toList.map lowerChar)
    let s2 := (str2.toList.map lowerChar)
    if s1 = s2 then 1
    else
      let longer := if s1.length > s2.length then s1 else s2
      let shorter := if s1.length > s2.length then s2 else s1
      if longer.length = 0 then 1
      else
        let editDistance := levenshteinDistance longer shorter
        ((longer.length - editDistance : ℕ) : ℚ) / (longer.length : ℚ)

/-! ## Analyzer : typo detection -/

/-- Insertion-ordered distinct values (`[...new Set(values)]`). -/
def firstDedupAux (seen : List String) : List String → List String
  | [] => []
  | x :: rest =>
    if seen.contains x then firstDedupAux seen rest
    else x :: firstDedupAux (x :: seen) rest

def firstDedup (l : List String) : List String := firstDedupAux [] l

/-- The inner `j` loop with its `break`: the first later unique value whose
similarity is in `[threshold, 1)`. -/
def firstSimilar (threshold : ℚ) (ui : String) : List String → Option (String × ℚ)
  | [] => none
  | uj :: rest =>
    let s := stringSimilarity ui uj
    if threshold ≤ s ∧ s < 1 then some (uj, s) else firstSimilar threshold ui rest

/-- `DataAnalyzer.detectTypos`. -/
def detectTypos (rows : List RowObj) (headers : List String)
    (columnAnalysis : List ColumnAnalysis) (threshold : ℚ) : List Issue :=
  headers.bind fun header =>
    let analysis := colLookup columnAnalysis header
    if analysis.detectedType ≠ "string" then []
    else if analysis.uniqueCount < 3 ∨
        (analysis.uniqueCount : ℚ) > (analysis.totalValues : ℚ) * (1/2) then []
    else
      let values := (rows.map fun r => jsTrim (cellStrOr (getF r header))).filter (· ≠ "")
      let uniqueValues := firstDedup values
      (List.range uniqueValues.length).bind fun i =>
        let ui := uniqueValues.getD i ""
        match firstSimilar threshold ui (uniqueValues.drop (i + 1)) with
        | some (uj, s) =>
          let count1 := values.count ui
          let count2 := values.count uj
          let tc := if count1 < count2 then (ui, uj) else (uj, ui)
          rows.enum.filterMap fun p =>
            if jsTrim (cellStr (getF p.2 header)) = tc.1 then
              some { type := "TYPO", severity := "info", row := some (p.1 + 2),
                     column := some header, value := some (Cell.str tc.1),
                     suggestion := some tc.2, similarity := jsRound (s * 100),
                     autoFixable := true }
            else none
        | none => []

/-! ## Analyzer : issue aggregation and quality score -/

/-- `DataAnalyzer.detectIssues` (the per-column loop, the calculation check
and the typo check, in source order). -/
def detectIssues (headers : List String) (rows : List RowObj)
    (columnAnalysis : List ColumnAnalysis) (opts : AnalyzerOptions) : List Issue :=
  detectDuplicates rows headers ++
  detectEmptyRows rows headers ++
  (headers.bind fun header =>
    let values := mkColVals rows header
    let colAnalysis := colLookup columnAnalysis header
    detectFormatInconsistency header colAnalysis ++
    detectValidationErrors header values colAnalysis ++
    detectWhitespaceIssues header values ++
    (if colAnalysis.isNumeric ∧ opts.detectOutliers then
      detectOutlierIssues header values opts.outlierThreshold
     else [])) ++
  (if opts.checkCalculations then detectCalculationErrors rows headers opts.ppnRate
   else []) ++
  detectTypos rows headers columnAnalysis opts.similarityThreshold

/-- The five issue codes counted against the validity sub-score. -/
def validityErrorCodes : List String :=
  ["INVALID_NIK", "INVALID_NPWP", "INVALID_EMAIL", "CALCULATION_ERROR", "PPN_ERROR"]

structure QualityScore where
  overall : ℚ
  grade : String
  gradeLabel : String
  completeness : ℚ
  consistency : ℚ
  validity : ℚ
  uniqueness : ℚ
deriving DecidableEq, Repr

/-- `DataAnalyzer.calculateQualityScore` (the `breakdown` object is
flattened into the four sub-score fields; the constant `thresholds` echo
is dropped). -/
def calculateQualityScore (rows : List RowObj) (issues : List Issue)
    (columnAnalysis : List ColumnAnalysis) : QualityScore :=
  let totalCells : ℕ := rows.length * columnAnalysis.length
  let filledCells : ℕ := (columnAnalysis.map (·.nonEmptyCount)).sum
  let completeness := (filledCells : ℚ) / (totalCells : ℚ) * 100
  let consistentColumns : ℕ :=
    (columnAnalysis.filter fun c => c.detectedType ≠ "mixed").length
  let consistency := (consistentColumns : ℚ) / (columnAnalysis.length : ℚ) * 100
  let errorCount : ℕ := (issues.filter fun i => validityErrorCodes.contains i.type).length
  let validity := max 0 (100 - (errorCount : ℚ) / (rows.length : ℚ) * 100)
  let duplicateCount : ℕ := (issues.filter fun i => i.type = "DUPLICATE").length
  let uniqueness := ((rows.length : ℚ) - (duplicateCount : ℚ)) / (rows.length : ℚ) * 100
  let overall := completeness * (30/100) + consistency * (25/100) +
    validity * (25/100) + uniqueness * (20/100)
  let gl : String × String :=
    if overall ≥ 90 then ("A", "Excellent")
    else if overall ≥ 75 then ("B", "Good")
    else if overall ≥ 50 then ("C", "Fair")
    else if overall ≥ 25 then ("D", "Poor")
    else ("F", "Very Poor")
  { overall := round2 overall, grade := gl.1, gradeLabel := gl.2,
    completeness := round2 completeness, consistency := round2 consistency,
    validity := round2 validity, uniqueness := round2 uniqueness }

/-! ## helpers.js : calculateStats / statistics -/

def insertVal (x : ℚ) : List ℚ → List ℚ
  | [] => [x]
  | y :: ys => if x ≤ y then x :: y :: ys else y :: insertVal x ys

def sortVals (l : List ℚ) : List ℚ := l.foldr insertVal []

/-- Host float `Math.sqrt` has no exact ℚ counterpart; it is modelled by
the integer square root of the value scaled by 10¹², which agrees with the
float to ~6 decimal places.  No claim depends on a standard deviation. -/
def ratSqrtApprox (q : ℚ) : ℚ :=
  ((Nat.sqrt (q * 10 ^ 12).floor.toNat : ℚ)) / 10 ^ 6

structure Stats where
  count : Nat
  sum : ℚ
  mean : ℚ
  min : ℚ
  max : ℚ
  median : ℚ
  stdDev : ℚ
deriving DecidableEq, Repr

/-- helpers.js `calculateStats`. -/
def calculateStats (values : List Cell) : Stats :=
  let numbers := values.filterMap parseNumberCell
  if numbers.length = 0 then ⟨0, 0, 0, 0, 0, 0, 0⟩
  else
    let sorted := sortVals numbers
    let sum := numbers.sum
    let mean := sum / (numbers.length : ℚ)
    let mid := sorted.length / 2
    let median :=
      if sorted.length % 2 ≠ 0 then sorted.getD mid 0
      else (sorted.getD (mid - 1) 0 + sorted.getD mid 0) / 2
    let squaredDiffs := numbers.map fun v => (v - mean) ^ 2
    let avgSquaredDiff := squaredDiffs.sum / (numbers.length : ℚ)
    { count := numbers.length, sum := round2 sum, mean := round2 mean,
      min := sorted.getD 0 0, max := sorted.getD (sorted.length - 1) 0,
      median := round2 median, stdDev := round2 (ratSqrtApprox avgSquaredDiff) }

/-- `DataAnalyzer.generateStatistics`: stats per numeric column, tagged
with the detected type. -/
def generateStatistics (headers : List String) (rows : List RowObj)
    (columnAnalysis : List ColumnAnalysis) : List (String × Stats × String) :=
  headers.filterMap fun header =>
    let analysis := colLookup columnAnalysis header
    if analysis.isNumeric then
      some (header, calculateStats (rows.map fun r => getF r header), analysis.detectedType)
    else none

/-! ## Analyzer : suggestions -/

/-- A suggestion; the count carried inside the source's message string is
kept as the `count` field. -/
structure Suggestion where
  priority : String
  action : String
  count : Nat := 0
  autoFixable : Bool
deriving DecidableEq, Repr

def countType (issues : List Issue) (t : String) : Nat :=
  (issues.filter fun i => i.type = t).length

def priorityRank (p : String) : Nat :=
  if p = "high" then 0 else if p = "medium" then 1 else 2

/-- The JS `sort` by priority rank is stable; with three rank values it is
bucket concatenation. -/
def sortByPriority (l : List Suggestion) : List Suggestion :=
  (l.filter fun s => priorityRank s.priority = 0) ++
  (l.filter fun s => priorityRank s.priority = 1) ++
  (l.filter fun s => priorityRank s.priority = 2)

/-- `DataAnalyzer.generateSuggestions`. -/
def generateSuggestions (issues : List Issue) (qualityScore : QualityScore) :
    List Suggestion :=
  let dup := countType issues "DUPLICATE"
  let emp := countType issues "EMPTY_ROW"
  let ws := countType issues "WHITESPACE"
  let ppn := countType issues "PPN_ERROR"
  let calcN := countType issues "CALCULATION_ERROR"
  let fmt := countType issues "FORMAT_INCONSISTENT"
  let base :=
    (if dup > 0 then
      [{ priority := "high", action := "remove_duplicates", count := dup,
         autoFixable := true : Suggestion }] else []) ++
    (if emp > 0 then
      [{ priority := "medium", action := "remove_empty_rows", count := emp,
         autoFixable := true : Suggestion }] else []) ++
    (if ws > 0 then
      [{ priority := "low", action := "trim_whitespace", count := ws,
         autoFixable := true : Suggestion }] else []) ++
    (if ppn > 0 then
      [{ priority := "high", action := "fix_ppn", count := ppn,
         autoFixable := true : Suggestion }] else []) ++
    (if calcN > 0 then
      [{ priority := "high", action := "fix_calculations", count := calcN,
         autoFixable := true : Suggestion }] else []) ++
    (if fmt > 0 then
      [{ priority := "medium", action := "standardize_format", count := fmt,
         autoFixable := false : Suggestion }] else []) ++
    (if qualityScore.completeness < 80 then
      [{ priority := "medium", action := "fill_missing", autoFixable := false : Suggestion }]
     else [])
  sortByPriority base

/-! ## Analyzer : deep analysis -/

/-- `DataAnalyzer.performDeepAnalysis`.  The source wraps these findings in
tagged pattern/recommendation objects whose text is presentational; the
record keeps the data they carry. -/
structure DeepInsights where
  dateColumns : List String
  currencyColumns : List String
  currencyTotals : List (String × ℚ)
  identifierColumns : List (String × String)
  hasRecommendation : Bool
deriving DecidableEq, Repr

def performDeepAnalysis (rows : List RowObj)
    (columnAnalysis : List ColumnAnalysis) : DeepInsights :=
  let dateColumns := (columnAnalysis.filter (·.isDate)).map (·.header)
  let currencyColumns :=
    (columnAnalysis.filter fun c => c.detectedType = "currency").map (·.header)
  let currencyTotals := currencyColumns.map fun col =>
    (col, ((rows.map fun r => parseNumberCell (getF r col)).filterMap id).sum)
  let identifierColumns :=
    (columnAnalysis.filter (·.isIdentifier)).map fun c => (c.header, c.detectedType)
  let patternCount :=
    (if dateColumns.length > 0 then 1 else 0) +
    (if currencyColumns.length > 0 then 1 else 0) +
    (if identifierColumns.length > 0 then 1 else 0)
  { dateColumns := dateColumns, currencyColumns := currencyColumns,
    currencyTotals := currencyTotals, identifierColumns := identifierColumns,
    hasRecommendation := patternCount > 0 }

/-! ## Analyzer : top-level analyze -/

structure Sheet where
  headers : List String
  rows : List RowObj
deriving DecidableEq

structure ParsedData where
  sheets : List (String × Sheet)
  activeSheet : String
deriving DecidableEq

/-- `sheetName || parsedData.activeSheet` (callers pass `null` or a name). -/
def resolveSheetName (pd : ParsedData) (sheetName : Option String) : String :=
  match sheetName with
  | some n => if n = "" then pd.activeSheet else n
  | none => pd.activeSheet

def addToGroup : List (String × List Issue) → String → Issue → List (String × List Issue)
  | [], k, i => [(k, [i])]
  | (k', l) :: rest, k, i =>
    if k' = k then (k', l ++ [i]) :: rest else (k', l) :: addToGroup rest k i

def groupIssuesByType (issues : List Issue) : List (String × List Issue) :=
  issues.foldl (fun acc i => addToGroup acc i.type i) []

def groupIssuesBySeverity (issues : List Issue) : List (String × List Issue) :=
  issues.foldl (fun acc i => addToGroup acc i.severity i) []

structure AnalysisSummary where
  totalRows : Nat
  analyzedRows : Nat
  totalColumns : Nat
  headers : List String
deriving DecidableEq, Repr

/-- The analysis result (`analysisTime` and the `metadata` timestamp read
the host clock and are omitted; `issues.details` is the 100-issue slice). -/
structure AnalysisResult where
  summary : AnalysisSummary
  columnAnalysis : List ColumnAnalysis
  issuesTotal : Nat
  issuesByType : List (String × List Issue)
  issuesBySeverity : List (String × List Issue)
  issueDetails : List Issue
  qualityScore : QualityScore
  statistics : List (String × Stats × String)
  suggestions : List Suggestion
  deepInsights : Option DeepInsights
deriving DecidableEq

/-- `DataAnalyzer.analyze`: throws on a missing or empty sheet, otherwise
runs the full pipeline on the first `maxRowsAnalyze` rows. -/
def analyze (pd : ParsedData) (sheetName : Option String)
    (opts : AnalyzerOptions) : Except String AnalysisResult :=
  match pd.sheets.lookup (resolveSheetName pd sheetName) with
  | none => Except.error "Sheet kosong atau tidak ditemukan"
  | some sheet =>
    if sheet.rows.length = 0 then Except.error "Sheet kosong atau tidak ditemukan"
    else
      let rowsToAnalyze := sheet.rows.take opts.maxRowsAnalyze
      let columnAnalysis := analyzeColumns sheet.headers rowsToAnalyze
      let issues := detectIssues sheet.headers rowsToAnalyze columnAnalysis opts
      let qualityScore := calculateQualityScore rowsToAnalyze issues columnAnalysis
      Except.ok
        { summary :=
            { totalRows := sheet.rows.length, analyzedRows := rowsToAnalyze.length,
              totalColumns := sheet.headers.length, headers := sheet.headers },
          columnAnalysis := columnAnalysis,
          issuesTotal := issues.length,
          issuesByType := groupIssuesByType issues,
          issuesBySeverity := groupIssuesBySeverity issues,
          issueDetails := issues.take 100,
          qualityScore := qualityScore,
          statistics := generateStatistics sheet.headers rowsToAnalyze columnAnalysis,
          suggestions := generateSuggestions issues qualityScore,
          deepInsights :=
            if opts.deepAnalysis then
              some (performDeepAnalysis rowsToAnalyze columnAnalysis)
            else none }

/-! ## Cleaner

The cleaner is embedded with an explicit object heap so that the source's
aliasing discipline is visible: `deepClone` and every `{...row}` spread
allocate fresh objects, and every `newRow[h] = v` assignment is a
`Heap.set` on such a fresh reference.  A `Heap` maps allocated ids to row
objects; sheet rows are lists of ids. -/

structure Heap where
  next : Nat
  mem : List (Nat × RowObj)

def Heap.get (h : Heap) (r : Nat) : RowObj := (h.mem.lookup r).getD []

def Heap.alloc (h : Heap) (o : RowObj) : Heap × Nat :=
  (⟨h.next + 1, (h.next, o) :: h.mem⟩, h.next)

/-- JS property write `obj[k] = v`: overwrite in place, else append. -/
def objSet : RowObj → String → Cell → RowObj
  | [], k, v => [(k, v)]
  | (k', old) :: rest, k, v =>
    if k' = k then (k', v) :: rest else (k', old) :: objSet rest k v

def assocUpdate : List (Nat × RowObj) → Nat → String → Cell → List (Nat × RowObj)
  | [], _, _, _ => []
  | (i, o) :: rest, r, k, v =>
    if i = r then (i, objSet o k v) :: rest else (i, o) :: assocUpdate rest r k v

def Heap.set (h : Heap) (r : Nat) (k : String) (v : Cell) : Heap :=
  ⟨h.next, assocUpdate h.mem r k v⟩

def applyEdits (h : Heap) (r : Nat) : List (String × Cell) → Heap
  | [] => h
  | (k, v) :: rest => applyEdits (h.set r k v) r rest

/-- `deepClone(sheet.rows)` (a JSON round trip, which is the identity on
null/string/finite-number cells): allocate a fresh object per row. -/
def allocCopies (h : Heap) : List Nat → Heap × List Nat
  | [] => (h, [])
  | r :: rest =>
    let p := h.alloc (h.get r)
    let q := allocCopies p.1 rest
    (q.1, p.2 :: q.2)

/-- `const newRow = {...row}` followed by the stage's field assignments:
allocate a copy of `r`, compute the stage's edits from its content, apply
them by per-field writes.  Returns (heap, fresh ref, number of writes —
each stage's `fixCount` increments exactly once per write). -/
def copyEditRow (edits : RowObj → List (String × Cell)) (h : Heap) (r : Nat) :
    Heap × Nat × Nat :=
  let p := h.alloc (h.get r)
  let es := edits (p.1.get p.2)
  (applyEdits p.1 p.2 es, p.2, es.length)

/-- `rows.map(row => …)` for a copy-and-edit stage. -/
def mapRowsStore (f : Heap → Nat → Heap × Nat × Nat) (h : Heap) :
    List Nat → Heap × List Nat × Nat
  | [] => (h, [], 0)
  | r :: rest =>
    let p := f h r
    let q := mapRowsStore f p.1 rest
    (q.1, p.2.1 :: q.2.1, p.2.2 + q.2.2)

/-! ### Cleaner : string transforms -/

def collapseWsAux : Bool → List Char → List Char
  | _, [] => []
  | prevWs, c :: rest =>
    if isWsChar c then
      if prevWs then collapseWsAux true rest else ' ' :: collapseWsAux true rest
    else c :: collapseWsAux false rest

/-- helpers.js `normalizeString` on a string: trim, collapse whitespace
runs to single spaces. -/
def normalizeString (s : String) : String :=
  (collapseWsAux false (jsTrimList s.toList)).asString

def titleCaseAux : Bool → List Char → List Char
  | _, [] => []
  | atBoundary, c :: rest =>
    if isWsChar c then c :: titleCaseAux true rest
    else (if atBoundary then upperChar c else c) :: titleCaseAux false rest

/-- helpers.js `toTitleCase`. -/
def toTitleCase (s : String) : String :=
  if s = "" then "" else (titleCaseAux true (s.toList.map lowerChar)).asString

def padNum (width n : Nat) : String :=
  let s := toString n
  if s.length < width then String.mk (List.replicate (width - s.length) '0') ++ s else s

/-- date-fns `format` for the two patterns the engine's options use
(`dd/MM/yyyy` default, `yyyy-MM-dd`); other patterns are modelled by the
default — no claim exercises them. -/
def formatJDate (d : JDate) (fmtStr : String) : String :=
  if fmtStr = "yyyy-MM-dd" then
    padNum 4 d.year ++ "-" ++ padNum 2 d.month ++ "-" ++ padNum 2 d.day
  else
    padNum 2 d.day ++ "/" ++ padNum 2 d.month ++ "/" ++ padNum 4 d.year

/-- helpers.js `calculatePPN` (on an already-parsed number). -/
def calculatePPN (num : ℚ) (rate : ℚ) : ℚ := (jsRound (num * rate) : ℤ)

/-! ### Cleaner : per-stage edit lists (sequential-read semantics: each
edit is computed on the row as updated by the previous edits, exactly as
the JS reads `newRow[...]` after earlier assignments). -/

def trimEditsAux : List String → RowObj → List (String × Cell)
  | [], _ => []
  | hd :: rest, row =>
    match getF row hd with
    | Cell.str s =>
      let t := normalizeString s
      if s ≠ t then (hd, Cell.str t) :: trimEditsAux rest (objSet row hd (Cell.str t))
      else trimEditsAux rest row
    | _ => trimEditsAux rest row

def caseConvert (caseType : String) (s : String) : String :=
  if caseType = "upper" then jsUpper s
  else if caseType = "lower" then jsLower s
  else toTitleCase s

def caseEditsAux (caseType : String) : List String → RowObj → List (String × Cell)
  | [], _ => []
  | hd :: rest, row =>
    match getF row hd with
    | Cell.str s =>
      if jsTrim s ≠ "" then
        let conv := caseConvert caseType s
        if s ≠ conv then
          (hd, Cell.str conv) :: caseEditsAux caseType rest (objSet row hd (Cell.str conv))
        else caseEditsAux caseType rest row
      else caseEditsAux caseType rest row
    | _ => caseEditsAux caseType rest row

def dateEditsAux (fmtStr : String) : List String → RowObj → List (String × Cell)
  | [], _ => []
  | hd :: rest, row =>
    let value := getF row hd
    if ¬isEmptyCell value then
      match parseDate value with
      | some d =>
        let formatted := formatJDate d fmtStr
        if cellStr value ≠ formatted then
          (hd, Cell.str formatted) ::
            dateEditsAux fmtStr rest (objSet row hd (Cell.str formatted))
        else dateEditsAux fmtStr rest row
      | none => dateEditsAux fmtStr rest row
    else dateEditsAux fmtStr rest row

def phoneEditsAux : List String → RowObj → List (String × Cell)
  | [], _ => []
  | hd :: rest, row =>
    let value := getF row hd
    if ¬isEmptyCell value then
      match normalizePhoneID value with
      | some normalized =>
        if normalized ≠ cellStr value then
          (hd, Cell.str normalized) ::
            phoneEditsAux rest (objSet row hd (Cell.str normalized))
        else phoneEditsAux rest row
      | none => phoneEditsAux rest row
    else phoneEditsAux rest row

/-- `DataCleaner.fixCalculations` for one row: subtotal, then PPN (reading
the just-fixed subtotal), then total (reading both). -/
def calcEdits (qtyColumn priceColumn subtotalColumn ppnColumn totalColumn : Option String)
    (ppnRate : ℚ) (row0 : RowObj) : List (String × Cell) :=
  let e1 : List (String × Cell) :=
    match qtyColumn, priceColumn, subtotalColumn with
    | some qc, some pc, some sc =>
      match parseNumberCell (getF row0 qc), parseNumberCell (getF row0 pc) with
      | some qty, some price =>
        let expectedSubtotal := qty * price
        match parseNumberCell (getF row0 sc) with
        | some currentSubtotal =>
          if jsAbs (expectedSubtotal - currentSubtotal) > 1 then
            [(sc, Cell.num expectedSubtotal)]
          else []
        | none => [(sc, Cell.num expectedSubtotal)]
      | _, _ => []
    | _, _, _ => []
  let row1 := e1.foldl (fun r p => objSet r p.1 p.2) row0
  let e2 : List (String × Cell) :=
    match ppnColumn with
    | some pcol =>
      match parseNumberCell (jsOr (optGetF row1 subtotalColumn) (optGetF row1 priceColumn)) with
      | some base =>
        if base > 0 then
          let expectedPPN := calculatePPN base ppnRate
          match parseNumberCell (getF row1 pcol) with
          | some currentPPN =>
            if jsAbs (expectedPPN - currentPPN) > 100 then [(pcol, Cell.num expectedPPN)]
            else []
          | none => [(pcol, Cell.num expectedPPN)]
        else []
      | none => []
    | none => []
  let row2 := e2.foldl (fun r p => objSet r p.1 p.2) row1
  let e3 : List (String × Cell) :=
    match totalColumn with
    | some tc =>
      if subtotalColumn.isSome ∨ priceColumn.isSome then
        match parseNumberCell (jsOr (optGetF row2 subtotalColumn) (optGetF row2 priceColumn)) with
        | some subtotal =>
          let ppn :=
            match ppnColumn with
            | some pcol => (parseNumberCell (getF row2 pcol)).getD 0
            | none => 0
          let expectedTotal := subtotal + ppn
          match parseNumberCell (getF row2 tc) with
          | some currentTotal =>
            if jsAbs (expectedTotal - currentTotal) > 1 then [(tc, Cell.num expectedTotal)]
            else []
          | none => [(tc, Cell.num expectedTotal)]
        | none => []
      else []
    | none => []
  e1 ++ e2 ++ e3

/-- The `fixMap` of `DataCleaner.fixTypos`: first-wins (row, column) →
suggestion.  (The source keys a Map by the string `row + ":" + column`; for
colon-free column names that is the same pairing.) -/
def buildFixMap : List Issue → List (Nat × String × String) → List (Nat × String × String)
  | [], acc => acc.reverse
  | i :: rest, acc =>
    match i.row, i.column, i.suggestion with
    | some r, some c, some s =>
      if acc.any (fun e => e.1 = r ∧ e.2.1 = c) then buildFixMap rest acc
      else buildFixMap rest ((r, c, s) :: acc)
    | _, _, _ => buildFixMap rest acc

def typoEdits (fixMap : List (Nat × String × String)) (rowNum : Nat) (_row : RowObj) :
    List (String × Cell) :=
  fixMap.filterMap fun e =>
    if e.1 = rowNum then some (e.2.1, Cell.str e.2.2) else none

/-- `DataCleaner.fixTypos` as a standalone transform on a row-ref list and
an issue *list* (its parameter's intended type).  Applies each TYPO
suggestion whose `row` equals `index + 2` in the *current* list. -/
def fixTyposGo (fixMap : List (Nat × String × String)) (h : Heap) :
    List Nat → Nat → Heap × List Nat × Nat
  | [], _ => (h, [], 0)
  | r :: rest, idx =>
    let p := copyEditRow (typoEdits fixMap (idx + 2)) h r
    let q := fixTyposGo fixMap p.1 rest (idx + 1)
    (q.1, p.2.1 :: q.2.1, p.2.2 + q.2.2)

def fixTyposStore (h : Heap) (refs : List Nat) (issues : List Issue) :
    Heap × List Nat × Nat :=
  let typoIssues := issues.filter fun i => i.type = "TYPO" ∧ i.suggestion.isSome
  if typoIssues.length = 0 then (h, refs, 0)
  else fixTyposGo (buildFixMap typoIssues []) h refs 0

/-! ### Cleaner : filter stages -/

/-- `DataCleaner.removeEmptyRows` (keep rows with at least one non-blank
field); pure on the heap. -/
def removeEmptyRowsRefs (h : Heap) (headers : List String) (refs : List Nat) : List Nat :=
  refs.filter fun r => headers.any fun hd => ¬blankVal (getF (h.get r) hd)

/-- `DataCleaner.removeDuplicates` (first occurrence of each signature
wins); pure on the heap. -/
def removeDupAux (h : Heap) (headers : List String) :
    List Nat → List String → List Nat
  | [], _ => []
  | r :: rest, seen =>
    let sig := rowSignature headers (h.get r)
    if seen.contains sig then removeDupAux h headers rest seen
    else r :: removeDupAux h headers rest (sig :: seen)

def removeDuplicatesRefs (h : Heap) (headers : List String) (refs : List Nat) : List Nat :=
  removeDupAux h headers refs []

/-! ### Cleaner : options, log and the pipeline -/

/-- Constructor defaults of `DataCleaner`. -/
structure CleanOptions where
  removeDuplicates : Bool := true
  removeEmptyRows : Bool := true
  trimWhitespace : Bool := true
  normalizeCase : Bool := false
  caseType : String := "title"
  standardizeDates : Bool := true
  dateFormat : String := "dd/MM/yyyy"
  standardizePhones : Bool := true
  phoneFormat : String := "+62"
  fixCalculations : Bool := true
  ppnRate : ℚ := 11/100
  fixTypos : Bool := false
deriving DecidableEq, Repr

/-- One cleaning-log entry (`message` repeats `affectedCount` in prose and
`timestamp` reads the host clock; both omitted). -/
structure LogEntry where
  operation : String
  affectedCount : Nat
deriving DecidableEq, Repr

structure RefSheet where
  headers : List String
  rowRefs : List Nat
deriving DecidableEq

structure RefParsedData where
  sheets : List (String × RefSheet)
  activeSheet : String
deriving DecidableEq

/-- Dereference a sheet table through the heap. -/
def derefSheet (h : Heap) (s : RefSheet) : Sheet :=
  { headers := s.headers, rows := s.rowRefs.map h.get }

def derefPD (h : Heap) (pd : RefParsedData) : ParsedData :=
  { sheets := pd.sheets.map fun p => (p.1, derefSheet h p.2),
    activeSheet := pd.activeSheet }

def resolveRefSheetName (pd : RefParsedData) (sheetName : Option String) : String :=
  match sheetName with
  | some n => if n = "" then pd.activeSheet else n
  | none => pd.activeSheet

structure CleanResult where
  data : RefParsedData
  originalRows : Nat
  cleanedRows : Nat
  rowsRemoved : Nat
  operationsPerformed : Nat
  log : List LogEntry
deriving DecidableEq

def logIf (name : String) (count : Nat) : List LogEntry :=
  if count > 0 then [⟨name, count⟩] else []

/-- `DataCleaner.clean`.  The heap is threaded through and returned even on
the error paths (a thrown JS exception leaves completed mutations in
place).  Stage 8 models the source defect at line 285 of the cleaner:
`fixTypos` is handed `analysis.issues` — the aggregate
`{total, byType, bySeverity, details}` record — whose `.filter` is not a
function, so an enabled typo stage always throws before applying any fix. -/
def cleanStore (h0 : Heap) (pd : RefParsedData) (sheetName : Option String)
    (options : CleanOptions) : Heap × Except String CleanResult :=
  let targetSheet := resolveRefSheetName pd sheetName
  match pd.sheets.lookup targetSheet with
  | none => (h0, Except.error "Sheet kosong atau tidak ditemukan")
  | some sheet =>
    if sheet.rowRefs.length = 0 then
      (h0, Except.error "Sheet kosong atau tidak ditemukan")
    else
      let cloned := allocCopies h0 sheet.rowRefs
      let h1 := cloned.1
      let originalCount := cloned.2.length
      match analyze (derefPD h1 pd) (some targetSheet) {} with
      | Except.error e => (h1, Except.error e)
      | Except.ok analysis =>
        let columnAnalysis := analysis.columnAnalysis
        let refs1 :=
          if options.removeEmptyRows then removeEmptyRowsRefs h1 sheet.headers cloned.2
          else cloned.2
        let log1 := logIf "remove_empty_rows" (cloned.2.length - refs1.length)
        let refs2 :=
          if options.removeDuplicates then removeDuplicatesRefs h1 sheet.headers refs1
          else refs1
        let log2 := logIf "remove_duplicates" (refs1.length - refs2.length)
        let st3 :=
          if options.trimWhitespace then
            mapRowsStore (copyEditRow (trimEditsAux sheet.headers)) h1 refs2
          else (h1, refs2, 0)
        let log3 := logIf "trim_whitespace" st3.2.2
        let stringColumns :=
          (columnAnalysis.filter fun c => c.detectedType = "string").map (·.header)
        let st4 :=
          if options.normalizeCase then
            mapRowsStore (copyEditRow (caseEditsAux options.caseType stringColumns))
              st3.1 st3.2.1
          else (st3.1, st3.2.1, 0)
        let log4 := logIf "normalize_case" st4.2.2
        let dateColumns :=
          (columnAnalysis.filter fun c =>
            c.detectedType = "date" ∨ c.detectedType = "datetime").map (·.header)
        let st5 :=
          if options.standardizeDates ∧ dateColumns.length ≠ 0 then
            mapRowsStore (copyEditRow (dateEditsAux options.dateFormat dateColumns))
              st4.1 st4.2.1
          else (st4.1, st4.2.1, 0)
        let log5 := logIf "standardize_dates" st5.2.2
        let phoneColumns :=
          (columnAnalysis.filter fun c => c.detectedType = "phone").map (·.header)
        let st6 :=
          if options.standardizePhones ∧ phoneColumns.length ≠ 0 then
            mapRowsStore (copyEditRow (phoneEditsAux phoneColumns)) st5.1 st5.2.1
          else (st5.1, st5.2.1, 0)
        let log6 := logIf "standardize_phones" st6.2.2
        let st7 :=
          if options.fixCalculations then
            mapRowsStore
              (copyEditRow
                (calcEdits (findHeader qtyPred sheet.headers)
                  (findHeader pricePred sheet.headers)
                  (findHeader subtotalPred sheet.headers)
                  (findHeader ppnPred sheet.headers)
                  (findHeader totalPredCleaner sheet.headers) options.ppnRate))
              st6.1 st6.2.1
          else (st6.1, st6.2.1, 0)
        let log7 := logIf "fix_calculations" st7.2.2
        if options.fixTypos then
          (st7.1, Except.error "TypeError: issues.filter is not a function")
        else
          let finalRefs := st7.2.1
          let log := log1 ++ log2 ++ log3 ++ log4 ++ log5 ++ log6 ++ log7
          (st7.1, Except.ok
            { data :=
                { sheets := pd.sheets.map fun p =>
                    if p.1 = targetSheet then
                      (p.1, { headers := p.2.headers, rowRefs := finalRefs })
                    else p,
                  activeSheet := pd.activeSheet },
              originalRows := originalCount,
              cleanedRows := finalRefs.length,
              rowsRemoved := originalCount - finalRefs.length,
              operationsPerformed := log.length,
              log := log })

/-! ### Cleaner : pure wrapper -/

def allocRows (h : Heap) : List RowObj → Heap × List Nat
  | [] => (h, [])
  | o :: rest =>
    let p := h.alloc o
    let q := allocRows p.1 rest
    (q.1, p.2 :: q.2)

def initSheets (h : Heap) : List (String × Sheet) → Heap × List (String × RefSheet)
  | [] => (h, [])
  | (n, s) :: rest =>
    let p := allocRows h s.rows
    let q := initSheets p.1 rest
    (q.1, (n, { headers := s.headers, rowRefs := p.2 }) :: q.2)

structure CleanResultPure where
  data : ParsedData
  originalRows : Nat
  cleanedRows : Nat
  rowsRemoved : Nat
  operationsPerformed : Nat
  log : List LogEntry
deriving DecidableEq

/-- `clean` on a plain table: load the rows into a fresh heap, run
`cleanStore`, read the result back. -/
def cleanTable (pd : ParsedData) (sheetName : Option String)
    (options : CleanOptions) : Except String CleanResultPure :=
  let h0 : Heap := ⟨0, []⟩
  let ini := initSheets h0 pd.sheets
  let refPD : RefParsedData := { sheets := ini.2, activeSheet := pd.activeSheet }
  match cleanStore ini.1 refPD sheetName options with
  | (_, Except.error e) => Except.error e
  | (h, Except.ok r) =>
    Except.ok
      { data := derefPD h r.data, originalRows := r.originalRows,
        cleanedRows := r.cleanedRows, rowsRemoved := r.rowsRemoved,
        operationsPerformed := r.operationsPerformed, log := r.log }

/-! ## Spec-side definitions

These few definitions transcribe formulas from the specification's own
words (not from the source) so that refinement statements can compare the
two; each is named `spec…`. -/

/-- Spec §3/§4.5: completeness = filled cells / (rows × columns) × 100. -/
def specCompleteness (rows : List RowObj) (cols : List ColumnAnalysis) : ℚ :=
  (((cols.map (·.nonEmptyCount)).sum : ℕ) : ℚ) /
    ((rows.length * cols.length : ℕ) : ℚ) * 100

/-- Spec §4.5: consistency = non-MIXED columns / total columns × 100. -/
def specConsistency (cols : List ColumnAnalysis) : ℚ :=
  (((cols.filter fun c => c.detectedType ≠ "mixed").length : ℕ) : ℚ) /
    (cols.length : ℚ) * 100

/-- Spec §4.5: validity = 100 − (validity-error issues / rows × 100),
floored at 0. -/
def specValidity (rows : List RowObj) (issues : List Issue) : ℚ :=
  max 0 (100 -
    ((issues.filter fun i => validityErrorCodes.contains i.type).length : ℚ) /
      (rows.length : ℚ) * 100)

/-- Spec §4.5: uniqueness = (rows − duplicate issues) / rows × 100. -/
def specUniqueness (rows : List RowObj) (issues : List Issue) : ℚ :=
  ((rows.length : ℚ) - ((issues.filter fun i => i.type = "DUPLICATE").length : ℚ)) /
    (rows.length : ℚ) * 100

/-- Spec §3: overall = completeness·0.30 + consistency·0.25 +
validity·0.25 + uniqueness·0.20. -/
def specOverall (rows : List RowObj) (issues : List Issue)
    (cols : List ColumnAnalysis) : ℚ :=
  specCompleteness rows cols * (30/100) + specConsistency cols * (25/100) +
    specValidity rows issues * (25/100) + specUniqueness rows issues * (20/100)

/-- Spec §3: the letter grade (A ≥ 90, B ≥ 75, C ≥ 50, D ≥ 25, else F),
applied to the weighted sum. -/
def specGrade (overall : ℚ) : String :=
  if overall ≥ 90 then "A"
  else if overall ≥ 75 then "B"
  else if overall ≥ 50 then "C"
  else if overall ≥ 25 then "D"
  else "F"

/-- The input-shape error condition of §7: target sheet missing or with
zero rows. -/
def badInput (pd : ParsedData) (name : Option String) : Bool :=
  match pd.sheets.lookup (resolveSheetName pd name) with
  | none => true
  | some s => s.rows.length = 0

/-- Index of the first occurrence. -/
def firstIdx? : List String → String → Option Nat
  | [], _ => none
  | x :: rest, s => if x = s then some 0 else (firstIdx? rest s).map (· + 1)

/-- Heap `h'` extends `h` without touching any reference below `n`. -/
def FrameTo (n : Nat) (h h' : Heap) : Prop :=
  n ≤ h'.next ∧ ∀ r, r < n → h'.mem.lookup r = h.mem.lookup r

/-- Every row reference of the table lies below `n` (i.e. was allocated
before the call). -/
def RefsBelow (n : Nat) (rpd : RefParsedData) : Prop :=
  ∀ p ∈ rpd.sheets, ∀ r ∈ p.2.rowRefs, r < n

instance (n : Nat) (rpd : RefParsedData) : Decidable (RefsBelow n rpd) := by
  unfold RefsBelow
  exact inferInstance

/-! ## Concrete example tables used by witnesses and counterexamples -/

/-- A one-column table: an empty first row, then names with one typo
("santosa" in data row 6, once) against "santoso" (three times). -/
def exRowsC10 : List RowObj :=
  [[("nama", Cell.str "")], [("nama", Cell.str "budi")], [("nama", Cell.str "budi")],
   [("nama", Cell.str "santoso")], [("nama", Cell.str "santoso")],
   [("nama", Cell.str "santoso")], [("nama", Cell.str "santosa")],
   [("nama", Cell.str "budi")], [("nama", Cell.str "budi")], [("nama", Cell.str "budi")]]

def exPDC10 : ParsedData :=
  { sheets := [("Sheet1", { headers := ["nama"], rows := exRowsC10 })],
    activeSheet := "Sheet1" }

/-- The TYPO issue the analyzer raises on `exRowsC10`: original-table row
8 (0-based data index 6 plus 2), suggesting the majority spelling. -/
def exTypoIssueC10 : Issue :=
  { type := "TYPO", severity := "info", row := some 8, column := some "nama",
    value := some (Cell.str "santosa"), suggestion := some "santoso",
    similarity := some 86, autoFixable := true }

/-- `exRowsC10` after `removeEmptyRows` (the empty first row dropped),
loaded at references 0–8. -/
def exHeapC10 : Heap :=
  ⟨9, [(0, [("nama", Cell.str "budi")]), (1, [("nama", Cell.str "budi")]),
       (2, [("nama", Cell.str "santoso")]), (3, [("nama", Cell.str "santoso")]),
       (4, [("nama", Cell.str "santoso")]), (5, [("nama", Cell.str "santosa")]),
       (6, [("nama", Cell.str "budi")]), (7, [("nama", Cell.str "budi")]),
       (8, [("nama", Cell.str "budi")])]⟩

/-- The per-value classifications of a column's non-empty values, as
`detectColumnType` computes them. -/
def classifiedTypes (header : String) (values : List Cell) : List String :=
  (values.filter fun v => ¬isEmptyCell v).map fun v => detectValueType v (jsLower header)

/-- The `numbers` list of `detectOutliers`: (parsed value, 0-based index)
pairs of the parseable cells. -/
def colNumbers (values : List Cell) : List (ℚ × Nat) :=
  values.enum.filterMap fun p => (parseNumberCell p.2).map fun q => (q, p.1)

/-- Spec-side Q1: sort the parsed plain values, read the entry at index
`floor(n·0.25)`. -/
def specQ1 (values : List Cell) : ℚ :=
  ((sortVals ((colNumbers values).map (·.1))).get? ((colNumbers values).length / 4)).getD 0

/-- Spec-side Q3: the sorted entry at index `floor(n·0.75)`. -/
def specQ3 (values : List Cell) : ℚ :=
  ((sortVals ((colNumbers values).map (·.1))).get?
    (3 * (colNumbers values).length / 4)).getD 0

/-- Spec-side lower IQR bound `Q1 − k·IQR`. -/
def specLower (values : List Cell) (threshold : ℚ) : ℚ :=
  specQ1 values - threshold * (specQ3 values - specQ1 values)

/-- Spec-side upper IQR bound `Q3 + k·IQR`. -/
def specUpper (values : List Cell) (threshold : ℚ) : ℚ :=
  specQ3 values + threshold * (specQ3 values - specQ1 values)

/-- The spec's example outlier column [10,11,9,12,10,11,1000,9,10,11],
with the 2-based spreadsheet row numbers the analyzer attaches. -/
def exColC7 : List (Cell × Nat) :=
  [(Cell.num 10, 2), (Cell.num 11, 3), (Cell.num 9, 4), (Cell.num 12, 5),
   (Cell.num 10, 6), (Cell.num 11, 7), (Cell.num 1000, 8), (Cell.num 9, 9),
   (Cell.num 10, 10), (Cell.num 11, 11)]

/-! # Theorems for the claims -/

set_option maxRecDepth 10000

/-- C5: parseNumber strips currency prefixes and disambiguates Indonesian
from US digit grouping by shape: "1.234,56" ↦ 1234.56, "1,234.56" ↦
1234.56, "Rp 1.500.000" ↦ 1500000, and an unparseable input such as "abc"
yields null; the embedded function is total (never throws), so every value
either parses or yields null. -/
theorem c5_parseNumber_examples :
    parseNumberCell (Cell.str "1.234,56") = some (123456/100) ∧
    parseNumberCell (Cell.str "1,234.56") = some (123456/100) ∧
    parseNumberCell (Cell.str "Rp 1.500.000") = some 1500000 ∧
    parseNumberCell (Cell.str "abc") = none ∧
    ∀ c : Cell, parseNumberCell c = none ∨ ∃ q, parseNumberCell c = some q := by
  refine ⟨by decide, by decide, by decide, by decide, fun c => ?_⟩
  cases h : parseNumberCell c with
  | none => exact Or.inl rfl
  | some q => exact Or.inr ⟨q, rfl⟩

/-- C3: the spec example "3201011505990001" validates as claimed (province
"Jawa Barat", birth date 15/05/1999, gender "Laki-laki").  But the claim's
"four-digit year is 1900 plus the two-digit year" fails for year digits
00–09: `validateNIK` builds the date with the template `…/19${year}` after
`parseInt`, so "3201011505050001" (year digits "05") yields the
three-character year "195" instead of 1905 — a slip in the code, whose
intent (spec §4.2, "assumed 19xx") is the claim's statement. -/
theorem c3_validateNIK_year :
    validateNIK (Cell.str "3201011505990001") =
      { valid := true, province := some "Jawa Barat", provinceCode := some "32",
        birthDate := some "15/05/1999", gender := some "Laki-laki" } ∧
    validateNIK (Cell.str "3201011505050001") =
      { valid := true, province := some "Jawa Barat", provinceCode := some "32",
        birthDate := some "15/05/195", gender := some "Laki-laki" } := by
  exact ⟨by decide, by decide⟩

/-- C1: the quality score equals the spec's weighted formula — each
sub-score and the overall score are the 2-decimal roundings of the spec
formulas, and the grade is the spec's letter for the (unrounded) weighted
sum.  A table with no issues, full cells, no MIXED columns and no
duplicates scores overall = 100 with grade A. -/
theorem c1_quality_score (rows : List RowObj) (issues : List Issue)
    (cols : List ColumnAnalysis) :
    (calculateQualityScore rows issues cols).overall =
        round2 (specOverall rows issues cols) ∧
    (calculateQualityScore rows issues cols).completeness =
        round2 (specCompleteness rows cols) ∧
    (calculateQualityScore rows issues cols).consistency =
        round2 (specConsistency cols) ∧
    (calculateQualityScore rows issues cols).validity =
        round2 (specValidity rows issues) ∧
    (calculateQualityScore rows issues cols).uniqueness =
        round2 (specUniqueness rows issues) ∧
    (calculateQualityScore rows issues cols).grade =
        specGrade (specOverall rows issues cols) ∧
    (rows ≠ [] → cols ≠ [] → issues = [] →
      (∀ c ∈ cols, c.nonEmptyCount = rows.length ∧ c.detectedType ≠ "mixed") →
      (calculateQualityScore rows issues cols).overall = 100 ∧
      (calculateQualityScore rows issues cols).grade = "A") := by
  have hOverall : (calculateQualityScore rows issues cols).overall =
      round2 (specOverall rows issues cols) := rfl
  have hGrade : (calculateQualityScore rows issues cols).grade =
      specGrade (specOverall rows issues cols) := by
    simp only [calculateQualityScore, specGrade, specOverall, specCompleteness,
      specConsistency, specValidity, specUniqueness]
    split_ifs <;> rfl
  refine ⟨hOverall, rfl, rfl, rfl, rfl, hGrade, ?_⟩
  intro hrows hcols hiss hall
  have hr0 : (rows.length : ℚ) ≠ 0 := by
    simp only [ne_eq, Nat.cast_eq_zero, List.length_eq_zero]
    exact hrows
  have hc0 : (cols.length : ℚ) ≠ 0 := by
    simp only [ne_eq, Nat.cast_eq_zero, List.length_eq_zero]
    exact hcols
  have hmap : cols.map (·.nonEmptyCount) = List.replicate cols.length rows.length := by
    rw [List.eq_replicate]
    constructor
    · simp
    · intro b hb
      obtain ⟨c, hcmem, hcb⟩ := List.mem_map.mp hb
      rw [← hcb]
      exact (hall c hcmem).1
  have hfilter : (cols.filter fun c => c.detectedType ≠ "mixed") = cols := by
    rw [List.filter_eq_self]
    intro c hcmem
    simpa using (hall c hcmem).2
  have hcompl : specCompleteness rows cols = 100 := by
    unfold specCompleteness
    rw [hmap, List.sum_replicate, smul_eq_mul, Nat.cast_mul, Nat.cast_mul,
      mul_comm ((cols.length : ℕ) : ℚ), div_self (mul_ne_zero hr0 hc0)]
    norm_num
  have hcons : specConsistency cols = 100 := by
    simp only [specConsistency, hfilter]
    field_simp
  have hvalid : specValidity rows issues = 100 := by
    simp [specValidity, hiss]
  have huniq : specUniqueness rows issues = 100 := by
    simp only [specUniqueness, hiss, List.filter_nil, List.length_nil]
    push_cast
    field_simp
  have hov : specOverall rows issues cols = 100 := by
    rw [specOverall, hcompl, hcons, hvalid, huniq]
    norm_num
  constructor
  · rw [hOverall, hov]
    decide
  · rw [hGrade, hov]
    decide

/-- Witness for C1 at a concrete one-row, one-column table with no issues:
the overall score is 100 with grade A. -/
theorem c1_quality_score_witness :
    ([[("a", Cell.str "x")]] : List RowObj) ≠ [] ∧
    ([analyzeColumn "a" [Cell.str "x"]] : List ColumnAnalysis) ≠ [] ∧
    (calculateQualityScore [[("a", Cell.str "x")]] []
        [analyzeColumn "a" [Cell.str "x"]]).overall = 100 ∧
    (calculateQualityScore [[("a", Cell.str "x")]] []
        [analyzeColumn "a" [Cell.str "x"]]).grade = "A" := by
  refine ⟨by decide, by decide, ?_⟩
  have h := (c1_quality_score [[("a", Cell.str "x")]] []
    [analyzeColumn "a" [Cell.str "x"]]).2.2.2.2.2.2
    (by decide) (by decide) rfl (by decide)
  exact h

/-- C4, counterexample to the claim as stated: a table with a subtotal
column (base 10000) and a tax cell "0".  The tax value differs from the
expected 1100 by far more than the tolerance max(11, 100), yet
`detectCalculationErrors` emits nothing: the source also requires the
parsed tax value to be strictly positive (`ppn > 0`), which the claim
omits. -/
theorem c4_ppn_zero_counterexample :
    detectCalculationErrors
        [[("subtotal", Cell.str "10000"), ("ppn", Cell.str "0")]]
        ["subtotal", "ppn"] (11/100) = [] ∧
    findHeader ppnPred ["subtotal", "ppn"] = some "ppn" ∧
    findHeader subtotalPred ["subtotal", "ppn"] = some "subtotal" ∧
    parseNumberCell (Cell.str "10000") = some 10000 ∧
    parseNumberCell (Cell.str "0") = some 0 ∧
    jsAbs (((jsRound ((10000 : ℚ) * (11/100)) : ℤ) : ℚ) - 0) >
      max (((jsRound ((10000 : ℚ) * (11/100)) : ℤ) : ℚ) * (1/100)) 100 := by
  refine ⟨by decide, by decide, by decide, by decide, by decide, by decide⟩

/-- C4 as amended: when a tax column and a subtotal (or total) column are
detected, the base (subtotal cell, falling back to the price cell) parses,
the tax cell parses to a *strictly positive* value, and the tax differs
from the rounded expected tax `round(base·rate)` by more than
max(1% of the expected tax, 100), `detectCalculationErrors` emits a
PPN_ERROR issue (severity error, autoFixable) for that row carrying the
expected and actual values. -/
theorem c4_ppn_error_emitted (rows : List RowObj) (headers : List String)
    (ppnRate : ℚ) (i : Nat) (row : RowObj) (pcol : String) (base ppn : ℚ)
    (hrow : rows[i]? = some row)
    (hppnc : findHeader ppnPred headers = some pcol)
    (hst : (findHeader subtotalPred headers).isSome = true ∨
      (findHeader totalPredAnalyzer headers).isSome = true)
    (hbase : parseNumberCell (jsOr (optGetF row (findHeader subtotalPred headers))
      (optGetF row (findHeader pricePred headers))) = some base)
    (hppn : parseNumberCell (getF row pcol) = some ppn)
    (hpos : ppn > 0)
    (hdiff : jsAbs (((jsRound (base * ppnRate) : ℤ) : ℚ) - ppn) >
      max (((jsRound (base * ppnRate) : ℤ) : ℚ) * (1/100)) 100) :
    ({ type := "PPN_ERROR", severity := "error", row := some (i + 2),
       column := some pcol, expected := some ((jsRound (base * ppnRate) : ℤ) : ℚ),
       actual := some ppn, autoFixable := true } : Issue) ∈
      detectCalculationErrors rows headers ppnRate := by
  unfold detectCalculationErrors
  apply List.mem_bind.mpr
  refine ⟨(i, row), List.mk_mem_enum_iff_getElem?.mpr hrow, ?_⟩
  apply List.mem_append_right
  simp only [ppnIssues, hppnc, hbase, hppn, if_pos hst, if_pos hpos, if_pos hdiff,
    List.mem_singleton]

/-- Witness for C4 at a concrete table: subtotal 10000, tax 2000 is flagged
with expected 1100 and actual 2000. -/
theorem c4_ppn_error_emitted_witness :
    ({ type := "PPN_ERROR", severity := "error", row := some 2,
       column := some "ppn",
       expected := some ((jsRound ((10000 : ℚ) * (11/100)) : ℤ) : ℚ),
       actual := some 2000, autoFixable := true } : Issue) ∈
      detectCalculationErrors
        [[("subtotal", Cell.str "10000"), ("ppn", Cell.str "2000")]]
        ["subtotal", "ppn"] (11/100) := by
  exact c4_ppn_error_emitted
    [[("subtotal", Cell.str "10000"), ("ppn", Cell.str "2000")]]
    ["subtotal", "ppn"] (11/100) 0
    [("subtotal", Cell.str "10000"), ("ppn", Cell.str "2000")]
    "ppn" 10000 2000 (by decide) (by decide) (Or.inl (by decide)) (by decide)
    (by decide) (by decide) (by decide)

/-- C2, counterexample to the claim as stated: in a two-row table whose
rows are identical, the duplicate detector flags the second row — whose
1-based position in the table's row list is 2 — but the issue's `row`
field is 3 (the source emits `index + 2`, spreadsheet numbering that
counts the header line). -/
theorem c2_duplicate_row_field_counterexample :
    detectDuplicates [[("a", Cell.str "x")], [("a", Cell.str "x")]] ["a"] =
      [{ type := "DUPLICATE", severity := "warning", row := some 3,
         column := none, originalRow := some 2, autoFixable := true }] ∧
    (3 : Nat) ≠ 2 := by
  refine ⟨by decide, by decide⟩

theorem firstIdx?_append_some {l1 l2 : List String} {s : String} {k : Nat}
    (h : firstIdx? l1 s = some k) : firstIdx? (l1 ++ l2) s = some k := by
  induction l1 generalizing k with
  | nil => simp [firstIdx?] at h
  | cons x rest ih =>
    by_cases hx : x = s
    · simp only [firstIdx?, if_pos hx] at h ⊢
      exact h
    · simp only [List.cons_append, List.append_eq, firstIdx?, if_neg hx] at h ⊢
      obtain ⟨k', hk', rfl⟩ := Option.map_eq_some'.mp h
      rw [ih hk', Option.map_some']

theorem firstIdx?_append_none {l1 l2 : List String} {s : String}
    (h : firstIdx? l1 s = none) :
    firstIdx? (l1 ++ l2) s = (firstIdx? l2 s).map (· + l1.length) := by
  induction l1 with
  | nil => simp [firstIdx?]
  | cons x rest ih =>
    by_cases hx : x = s
    · simp [firstIdx?, if_pos hx] at h
    · simp only [firstIdx?, if_neg hx, Option.map_eq_none'] at h
      simp only [List.cons_append, List.append_eq, firstIdx?, if_neg hx, ih h,
        List.length_cons, Option.map_map]
      cases firstIdx? l2 s with
      | none => rfl
      | some v =>
        simp only [Option.map_some', Function.comp_apply, Option.some_inj]
        omega

theorem firstIdx?_append_lt {l1 l2 : List String} {s : String} {k : Nat}
    (h : firstIdx? (l1 ++ l2) s = some k) (hk : k < l1.length) :
    firstIdx? l1 s = some k := by
  induction l1 generalizing k with
  | nil => simp at hk
  | cons x rest ih =>
    by_cases hx : x = s
    · simpa [firstIdx?, if_pos hx] using h
    · rw [List.cons_append] at h
      simp only [firstIdx?, if_neg hx] at h ⊢
      obtain ⟨k', hk', rfl⟩ := Option.map_eq_some'.mp h
      have : k' < rest.length := by
        simp only [List.length_cons] at hk
        omega
      rw [ih hk' this, Option.map_some']

theorem firstIdx?_le_of_getElem? {l : List String} {s : String} {i : Nat}
    (h : l[i]? = some s) : ∃ k, firstIdx? l s = some k ∧ k ≤ i := by
  induction l generalizing i with
  | nil => simp at h
  | cons x rest ih =>
    by_cases hx : x = s
    · exact ⟨0, by simp [firstIdx?, if_pos hx], Nat.zero_le i⟩
    · cases i with
      | zero =>
        rw [List.getElem?_cons_zero, Option.some_inj] at h
        exact absurd h hx
      | succ i' =>
        rw [List.getElem?_cons_succ] at h
        obtain ⟨k, hk, hki⟩ := ih h
        exact ⟨k + 1, by simp [firstIdx?, if_neg hx, hk], by omega⟩

theorem seenInv_keep {sigs : List String} {seen : List (String × Nat)} {s0 : String}
    {f : Nat} (hinv : ∀ s, seen.lookup s = firstIdx? sigs s)
    (hlook : seen.lookup s0 = some f) :
    ∀ s, seen.lookup s = firstIdx? (sigs ++ [s0]) s := by
  intro s
  cases hfi : firstIdx? sigs s with
  | some k0 => rw [hinv s, hfi, firstIdx?_append_some hfi]
  | none =>
    have hne : s ≠ s0 := by
      intro hcontra
      rw [← hcontra, hinv s, hfi] at hlook
      exact Option.noConfusion hlook
    rw [hinv s, hfi, firstIdx?_append_none hfi]
    simp [firstIdx?, Ne.symm hne]

theorem seenInv_extend {sigs : List String} {seen : List (String × Nat)} {s0 : String}
    (hinv : ∀ s, seen.lookup s = firstIdx? sigs s)
    (hlook : seen.lookup s0 = none) :
    ∀ s, (((s0, sigs.length) :: seen) : List (String × Nat)).lookup s =
      firstIdx? (sigs ++ [s0]) s := by
  intro s
  by_cases hs : s = s0
  · subst hs
    have hnone : firstIdx? sigs s = none := by rw [← hinv s, hlook]
    rw [List.lookup_cons_self, firstIdx?_append_none hnone]
    simp [firstIdx?]
  · have hbeq : (s == s0) = false := by simp [hs]
    simp only [List.lookup_cons, hbeq]
    rw [hinv s]
    cases hfi : firstIdx? sigs s with
    | some k0 => rw [firstIdx?_append_some hfi]
    | none =>
      rw [firstIdx?_append_none hfi]
      simp [firstIdx?, Ne.symm hs]

theorem detectDuplicatesAux_mem (headers : List String) :
    ∀ (rest : List RowObj) (sigs : List String) (seen : List (String × Nat)),
    (∀ s, seen.lookup s = firstIdx? sigs s) →
    ∀ (j : Nat) (rj : RowObj), rest[j]? = some rj →
    ∀ (k : Nat),
    firstIdx? (sigs ++ rest.map (rowSignature headers)) (rowSignature headers rj) =
      some k →
    k < sigs.length + j →
    ({ type := "DUPLICATE", severity := "warning", row := some (sigs.length + j + 2),
       column := none, originalRow := some (k + 2), autoFixable := true } : Issue) ∈
      detectDuplicatesAux headers rest sigs.length seen := by
  intro rest
  induction rest with
  | nil =>
    intro sigs seen _ j rj hj
    simp at hj
  | cons r rest' ih =>
    intro sigs seen hinv j rj hj k hk hlt
    cases j with
    | zero =>
      rw [List.getElem?_cons_zero, Option.some_inj] at hj
      subst hj
      have hk1 : firstIdx? sigs (rowSignature headers r) = some k :=
        firstIdx?_append_lt hk (by omega)
      simp only [detectDuplicatesAux, (hinv _).trans hk1]
      exact List.mem_cons_self _ _
    | succ j' =>
      rw [List.getElem?_cons_succ] at hj
      have hcombine :
          sigs ++ (r :: rest').map (rowSignature headers) =
            (sigs ++ [rowSignature headers r]) ++ rest'.map (rowSignature headers) := by
        simp
      rw [hcombine] at hk
      have hlen1 : (sigs ++ [rowSignature headers r]).length = sigs.length + 1 := by
        simp
      cases hlook : seen.lookup (rowSignature headers r) with
      | some f =>
        have h' := ih (sigs ++ [rowSignature headers r]) seen
          (seenInv_keep hinv hlook) j' rj hj k hk (by rw [hlen1]; omega)
        rw [hlen1] at h'
        rw [show sigs.length + 1 + j' + 2 = sigs.length + (j' + 1) + 2 by omega] at h'
        simp only [detectDuplicatesAux, hlook]
        exact List.mem_cons_of_mem _ h'
      | none =>
        have h' := ih (sigs ++ [rowSignature headers r])
          ((rowSignature headers r, sigs.length) :: seen)
          (seenInv_extend hinv hlook) j' rj hj k hk (by rw [hlen1]; omega)
        rw [hlen1] at h'
        rw [show sigs.length + 1 + j' + 2 = sigs.length + (j' + 1) + 2 by omega] at h'
        simp only [detectDuplicatesAux, hlook]
        exact h'

/-- C2 as amended: if two rows are identical in every column after
trimming and case-folding, the later one is flagged DUPLICATE (severity
warning, autoFixable); the issue's `row` field is the flagged row's
0-based index plus 2 — its 1-based position plus 1, i.e. its spreadsheet
row number counting the header line — and `originalRow` references the
first row with the same signature in the same numbering. -/
theorem c2_duplicate_flags_later_row (headers : List String) (rows : List RowObj)
    (i j : Nat) (ri rj : RowObj)
    (hi : rows[i]? = some ri) (hj : rows[j]? = some rj) (hij : i < j)
    (heq : ∀ h ∈ headers,
      jsLower (jsTrim (cellStrOr (getF ri h))) = jsLower (jsTrim (cellStrOr (getF rj h)))) :
    ∃ k, firstIdx? (rows.map (rowSignature headers)) (rowSignature headers rj) =
        some k ∧ k ≤ i ∧
      ({ type := "DUPLICATE", severity := "warning", row := some (j + 2),
         column := none, originalRow := some (k + 2), autoFixable := true } : Issue) ∈
        detectDuplicates rows headers := by
  have hsig : rowSignature headers ri = rowSignature headers rj := by
    unfold rowSignature
    congr 1
    exact List.map_congr_left heq
  have hLi : (rows.map (rowSignature headers))[i]? = some (rowSignature headers rj) := by
    rw [List.getElem?_map, hi, Option.map_some', hsig]
  obtain ⟨k, hk, hki⟩ := firstIdx?_le_of_getElem? hLi
  refine ⟨k, hk, hki, ?_⟩
  have h := detectDuplicatesAux_mem headers rows [] [] (fun s => rfl) j rj hj k
    (by simpa using hk) (by simpa using Nat.lt_of_le_of_lt hki hij)
  simpa using h

/-- Witness for C2 at a concrete two-row table: the second row is flagged
with `row` 3 referencing the first occurrence. -/
theorem c2_duplicate_flags_later_row_witness :
    ∃ k, firstIdx?
        (([[("a", Cell.str "x")], [("a", Cell.str " X ")]] : List RowObj).map
          (rowSignature ["a"]))
        (rowSignature ["a"] [("a", Cell.str " X ")]) = some k ∧ k ≤ 0 ∧
      ({ type := "DUPLICATE", severity := "warning", row := some 3,
         column := none, originalRow := some (k + 2), autoFixable := true } : Issue) ∈
        detectDuplicates [[("a", Cell.str "x")], [("a", Cell.str " X ")]] ["a"] :=
  c2_duplicate_flags_later_row ["a"] [[("a", Cell.str "x")], [("a", Cell.str " X ")]]
    0 1 [("a", Cell.str "x")] [("a", Cell.str " X ")] (by decide) (by decide)
    (by decide) (by decide)


theorem bump_lookup_self (acc : List (String × Nat)) (t : String) :
    (bumpTally acc t).lookup t = some ((acc.lookup t).getD 0 + 1) := by
  induction acc with
  | nil => simp [bumpTally]
  | cons p rest ih =>
    obtain ⟨k, c⟩ := p
    by_cases hk : k = t
    · subst hk
      simp [bumpTally, List.lookup_cons]
    · have hbeq : (t == k) = false := by simp [Ne.symm hk]
      simp only [bumpTally, if_neg hk, List.lookup_cons, hbeq, ih]

theorem bump_lookup_ne (acc : List (String × Nat)) (t t' : String) (h : t' ≠ t) :
    (bumpTally acc t).lookup t' = acc.lookup t' := by
  induction acc with
  | nil =>
    have hbeq : (t' == t) = false := by simp [h]
    simp [bumpTally, List.lookup_cons, hbeq]
  | cons p rest ih =>
    obtain ⟨k, c⟩ := p
    by_cases hk : k = t
    · subst hk
      have hbeq : (t' == k) = false := by simp [h]
      simp [bumpTally, List.lookup_cons, hbeq]
    · simp only [bumpTally, if_neg hk, List.lookup_cons, ih]

theorem bump_keys_mem (acc : List (String × Nat)) (t s : String) :
    s ∈ (bumpTally acc t).map Prod.fst ↔ s ∈ acc.map Prod.fst ∨ s = t := by
  induction acc with
  | nil => simp [bumpTally]
  | cons p rest ih =>
    obtain ⟨k, c⟩ := p
    by_cases hk : k = t
    · subst hk
      simp [bumpTally]
      tauto
    · simp only [bumpTally, if_neg hk, List.map_cons, List.mem_cons, ih]
      tauto

theorem bump_keys_nodup (acc : List (String × Nat)) (t : String)
    (h : (acc.map Prod.fst).Nodup) : ((bumpTally acc t).map Prod.fst).Nodup := by
  induction acc with
  | nil => simp [bumpTally]
  | cons p rest ih =>
    obtain ⟨k, c⟩ := p
    simp only [List.map_cons, List.nodup_cons] at h
    by_cases hk : k = t
    · subst hk
      have hb : bumpTally ((k, c) :: rest) k = (k, c + 1) :: rest := by
        simp [bumpTally]
      rw [hb]
      simp only [List.map_cons, List.nodup_cons]
      exact h
    · simp only [bumpTally, if_neg hk, List.map_cons, List.nodup_cons]
      refine ⟨fun hmem => ?_, ih h.2⟩
      rcases (bump_keys_mem rest t k).mp hmem with h1 | h2
      · exact h.1 h1
      · exact hk h2

theorem tallies_foldl_lookup (ts : List String) :
    ∀ (acc : List (String × Nat)) (t : String),
    (ts.foldl bumpTally acc).lookup t =
      match acc.lookup t with
      | some c => some (c + ts.count t)
      | none => if t ∈ ts then some (ts.count t) else none := by
  induction ts with
  | nil =>
    intro acc t
    rw [List.foldl_nil]
    cases hacc : acc.lookup t <;> simp [hacc]
  | cons x rest ih =>
    intro acc t
    rw [List.foldl_cons, ih]
    by_cases hx : t = x
    · subst hx
      rw [bump_lookup_self]
      cases hacc : acc.lookup t with
      | some c => simp [List.count_cons, Nat.add_assoc, Nat.add_comm 1]
      | none => simp [List.count_cons, Nat.add_comm]
    · rw [bump_lookup_ne acc x t hx]
      have hcnt : (x :: rest).count t = rest.count t := by
        simp [List.count_cons, hx]
      cases hacc : acc.lookup t with
      | some c => simp [hcnt]
      | none => simp [hcnt, List.mem_cons, hx]

theorem tallies_foldl_keys_mem (ts : List String) :
    ∀ (acc : List (String × Nat)) (s : String),
    s ∈ (ts.foldl bumpTally acc).map Prod.fst ↔ s ∈ acc.map Prod.fst ∨ s ∈ ts := by
  induction ts with
  | nil => simp
  | cons x rest ih =>
    intro acc s
    rw [List.foldl_cons, ih, bump_keys_mem]
    simp only [List.mem_cons]
    tauto

theorem tallies_foldl_keys_nodup (ts : List String) :
    ∀ (acc : List (String × Nat)), (acc.map Prod.fst).Nodup →
    ((ts.foldl bumpTally acc).map Prod.fst).Nodup := by
  induction ts with
  | nil => intro acc h; simpa using h
  | cons x rest ih =>
    intro acc h
    rw [List.foldl_cons]
    exact ih _ (bump_keys_nodup acc x h)

theorem tallies_lookup (ts : List String) (t : String) :
    (tallies ts).lookup t = if t ∈ ts then some (ts.count t) else none := by
  rw [tallies, tallies_foldl_lookup]
  simp

theorem tallies_keys_nodup (ts : List String) :
    ((tallies ts).map Prod.fst).Nodup :=
  tallies_foldl_keys_nodup ts [] (by simp)

theorem tallies_keys_mem (ts : List String) (s : String) :
    s ∈ (tallies ts).map Prod.fst ↔ s ∈ ts := by
  rw [tallies, tallies_foldl_keys_mem]
  simp

theorem lookup_eq_some_of_mem_nodup {l : List (String × Nat)} {t : String} {c : Nat}
    (hnd : (l.map Prod.fst).Nodup) (hmem : (t, c) ∈ l) : l.lookup t = some c := by
  induction l with
  | nil => simp at hmem
  | cons p rest ih =>
    obtain ⟨k, v⟩ := p
    simp only [List.map_cons, List.nodup_cons] at hnd
    rcases List.mem_cons.mp hmem with h1 | h2
    · rw [Prod.mk.injEq] at h1
      obtain ⟨rfl, rfl⟩ := h1
      simp [List.lookup_cons]
    · have hne : t ≠ k := by
        intro hcontra
        subst hcontra
        exact hnd.1 (List.mem_map.mpr ⟨(t, c), h2, rfl⟩)
      have hbeq : (t == k) = false := by simp [hne]
      simp only [List.lookup_cons, hbeq]
      exact ih hnd.2 h2

theorem mem_of_lookup_eq_some {l : List (String × Nat)} {t : String} {c : Nat}
    (h : l.lookup t = some c) : (t, c) ∈ l := by
  induction l with
  | nil => simp at h
  | cons p rest ih =>
    obtain ⟨k, v⟩ := p
    by_cases hk : t = k
    · subst hk
      rw [List.lookup_cons_self, Option.some_inj] at h
      subst h
      exact List.mem_cons_self _ _
    · have hbeq : (t == k) = false := by simp [hk]
      rw [List.lookup_cons, hbeq] at h
      exact List.mem_cons_of_mem _ (ih h)

theorem mem_tallies_count {ts : List String} {t : String} {c : Nat}
    (h : (t, c) ∈ tallies ts) : t ∈ ts ∧ c = ts.count t := by
  have hl := lookup_eq_some_of_mem_nodup (tallies_keys_nodup ts) h
  rw [tallies_lookup] at hl
  by_cases hm : t ∈ ts
  · rw [if_pos hm, Option.some_inj] at hl
    exact ⟨hm, hl.symm⟩
  · rw [if_neg hm] at hl
    exact Option.noConfusion hl

theorem count_mem_tallies {ts : List String} {t : String} (h : t ∈ ts) :
    (t, ts.count t) ∈ tallies ts :=
  mem_of_lookup_eq_some (by rw [tallies_lookup, if_pos h])

theorem tallies_length (ts : List String) :
    (tallies ts).length = ts.dedup.length := by
  have h1 : (tallies ts).length = ((tallies ts).map Prod.fst).length := by simp
  rw [h1, ← List.toFinset_card_of_nodup (tallies_keys_nodup ts),
    ← List.card_toFinset ts]
  congr 1
  ext s
  rw [List.mem_toFinset, List.mem_toFinset]
  exact tallies_keys_mem ts s

theorem pickDominant_foldl_spec (l : List (String × Nat)) :
    ∀ (acc : String × Nat),
    (l.foldl (fun acc e => if e.2 > acc.2 then e else acc) acc = acc ∨
      l.foldl (fun acc e => if e.2 > acc.2 then e else acc) acc ∈ l) ∧
    acc.2 ≤ (l.foldl (fun acc e => if e.2 > acc.2 then e else acc) acc).2 ∧
    ∀ e ∈ l, e.2 ≤ (l.foldl (fun acc e => if e.2 > acc.2 then e else acc) acc).2 := by
  induction l with
  | nil => intro acc; simp
  | cons p rest ih =>
    intro acc
    rw [List.foldl_cons]
    by_cases hp : p.2 > acc.2
    · rw [if_pos hp]
      obtain ⟨hm, hle, hall⟩ := ih p
      refine ⟨?_, le_trans (le_of_lt hp) hle, ?_⟩
      · rcases hm with h1 | h2
        · exact Or.inr (by rw [h1]; exact List.mem_cons_self _ _)
        · exact Or.inr (List.mem_cons_of_mem _ h2)
      · intro e he
        rcases List.mem_cons.mp he with h1 | h2
        · rw [h1]; exact hle
        · exact hall e h2
    · rw [if_neg hp]
      obtain ⟨hm, hle, hall⟩ := ih acc
      refine ⟨?_, hle, ?_⟩
      · rcases hm with h1 | h2
        · exact Or.inl h1
        · exact Or.inr (List.mem_cons_of_mem _ h2)
      · intro e he
        rcases List.mem_cons.mp he with h1 | h2
        · rw [h1]; exact le_trans (Nat.le_of_not_lt hp) hle
        · exact hall e h2

theorem pickDominant_spec (l : List (String × Nat)) :
    (pickDominant l = ("string", 0) ∨ pickDominant l ∈ l) ∧
    ∀ e ∈ l, e.2 ≤ (pickDominant l).2 := by
  obtain ⟨hm, _, hmax⟩ := pickDominant_foldl_spec l ("string", 0)
  exact ⟨hm, hmax⟩

theorem ne_mixed_of_ite {c : Prop} [Decidable c] {a b : String}
    (ha : a ≠ "mixed") (hb : b ≠ "mixed") : (if c then a else b) ≠ "mixed" := by
  by_cases hc : c
  · rwa [if_pos hc]
  · rwa [if_neg hc]

theorem numericOrString_ne_mixed (s : String) : numericOrString s ≠ "mixed" := by
  unfold numericOrString
  cases parseNumberStr s with
  | none => show ("string" : String) ≠ "mixed"; decide
  | some q =>
    show (if patNumberChars s.toList = true then
      (if q.den = 1 then "integer" else "float") else "string") ≠ "mixed"
    exact ne_mixed_of_ite (ne_mixed_of_ite (by decide) (by decide)) (by decide)

theorem detectValueTypeStr_ne_mixed (s h : String) :
    detectValueTypeStr s h ≠ "mixed" := by
  unfold detectValueTypeStr
  exact ne_mixed_of_ite (by decide) (ne_mixed_of_ite (by decide) (ne_mixed_of_ite (by decide)
    (ne_mixed_of_ite (by decide) (ne_mixed_of_ite (by decide) (ne_mixed_of_ite (by decide)
    (ne_mixed_of_ite (by decide) (ne_mixed_of_ite (by decide) (ne_mixed_of_ite (by decide)
    (ne_mixed_of_ite (by decide) (ne_mixed_of_ite (by decide)
      (numericOrString_ne_mixed s)))))))))))

theorem detectValueType_ne_mixed (v : Cell) (h : String) :
    detectValueType v h ≠ "mixed" := by
  unfold detectValueType
  exact ne_mixed_of_ite (by decide) (detectValueTypeStr_ne_mixed _ h)

theorem detectColumnType_eq (header : String) (values : List Cell)
    (h : values.length ≠ 0) :
    detectColumnType header values =
      ⟨if (tallies (values.map fun v => detectValueType v (jsLower header))).length > 2 ∧
          jsRound (((pickDominant (tallies (values.map fun v =>
            detectValueType v (jsLower header)))).2 : ℚ) / (values.length : ℚ) * 100) < 70
        then "mixed"
        else (pickDominant (tallies (values.map fun v =>
          detectValueType v (jsLower header)))).1,
       jsRound (((pickDominant (tallies (values.map fun v =>
         detectValueType v (jsLower header)))).2 : ℚ) / (values.length : ℚ) * 100),
       tallies (values.map fun v => detectValueType v (jsLower header))⟩ := by
  rw [detectColumnType, if_neg h]

/-- C6: for a column with at least one non-empty value, `analyzeColumn`
reports as dominant a per-value type with a maximal tally among the
classified non-empty values, the confidence is the (half-up rounded)
percentage of values of the dominant type among the non-empty values, and
the reported type is MIXED exactly when more than two distinct types were
observed and the confidence is below 70. -/
theorem c6_detectColumnType_dominant (header : String) (values : List Cell)
    (hne : classifiedTypes header values ≠ []) :
    ∃ d : String,
      d ∈ classifiedTypes header values ∧
      (∀ t : String, (classifiedTypes header values).count t ≤
        (classifiedTypes header values).count d) ∧
      (analyzeColumn header values).confidence =
        jsRound (((classifiedTypes header values).count d : ℚ) /
          ((classifiedTypes header values).length : ℚ) * 100) ∧
      ((analyzeColumn header values).detectedType = "mixed" ∨
        (analyzeColumn header values).detectedType = d) ∧
      ((analyzeColumn header values).detectedType = "mixed" ↔
        ((classifiedTypes header values).dedup.length > 2 ∧
          (analyzeColumn header values).confidence < 70)) := by
  have hfne : values.filter (fun v => ¬isEmptyCell v) ≠ [] := by
    intro hcontra
    apply hne
    rw [classifiedTypes, hcontra, List.map_nil]
  have hlen0 : (values.filter fun v => ¬isEmptyCell v).length ≠ 0 := by
    simpa [List.length_eq_zero] using hfne
  set ts := classifiedTypes header values with hts
  set dom := pickDominant (tallies ts) with hdom
  obtain ⟨hmem0, hmax0⟩ := pickDominant_spec (tallies ts)
  rw [← hdom] at hmem0 hmax0
  have hdmem : dom ∈ tallies ts := by
    rcases hmem0 with h1 | h2
    · exfalso
      obtain ⟨t0, ht0⟩ := List.exists_mem_of_ne_nil ts hne
      have hle := hmax0 _ (count_mem_tallies ht0)
      rw [h1] at hle
      simp only at hle
      have hpos : 0 < ts.count t0 := List.count_pos_iff.mpr ht0
      omega
    · exact h2
  have hfold : List.foldl (fun acc e => if e.2 > acc.2 then e else acc) ("string", 0)
      (tallies ts) = dom := hdom.symm
  obtain ⟨hdin, hdcount⟩ := mem_tallies_count hdmem
  rw [hfold] at hdin hdcount
  have hct : List.map (fun v => detectValueType v (jsLower header))
      (values.filter fun v => ¬isEmptyCell v) = ts := by
    rw [hts, classifiedTypes]
  have hDT := detectColumnType_eq header (values.filter fun v => ¬isEmptyCell v) hlen0
  rw [hct, ← hdom] at hDT
  have hlenq : ts.length = (values.filter fun v => ¬isEmptyCell v).length := by
    rw [hts, classifiedTypes, List.length_map]
  refine ⟨dom.1, hdin, ?_, ?_, ?_, ?_⟩
  · intro t
    by_cases ht : t ∈ ts
    · have h := hmax0 _ (count_mem_tallies ht)
      simp only at h
      rw [← hdcount]
      exact h
    · rw [List.count_eq_zero.mpr ht]
      exact Nat.zero_le _
  · show (detectColumnType header (values.filter fun v => ¬isEmptyCell v)).confidence =
      jsRound ((ts.count dom.1 : ℚ) / (ts.length : ℚ) * 100)
    rw [hDT]
    dsimp only
    rw [← hdcount, hlenq]
  · show (detectColumnType header (values.filter fun v => ¬isEmptyCell v)).type = "mixed" ∨
      (detectColumnType header (values.filter fun v => ¬isEmptyCell v)).type = dom.1
    rw [hDT]
    dsimp only
    split_ifs
    · left
      rfl
    · right
      rfl
  · have hdnm : dom.1 ≠ "mixed" := by
      have hdin' : dom.1 ∈ classifiedTypes header values := hts ▸ hdin
      rw [classifiedTypes] at hdin'
      obtain ⟨v0, _, hv0⟩ := List.mem_map.mp hdin'
      rw [← hv0]
      exact detectValueType_ne_mixed v0 (jsLower header)
    show (detectColumnType header (values.filter fun v => ¬isEmptyCell v)).type = "mixed" ↔
      (ts.dedup.length > 2 ∧ (analyzeColumn header values).confidence < 70)
    rw [hDT]
    dsimp only
    constructor
    · intro hmx
      split_ifs at hmx with hmix
      · refine ⟨by rw [← tallies_length]; exact hmix.1, ?_⟩
        show (detectColumnType header (values.filter fun v => ¬isEmptyCell v)).confidence < 70
        rw [hDT]
        exact hmix.2
      · exact absurd hmx hdnm
    · rintro ⟨hgt, hconf⟩
      have hconf2 : jsRound ((dom.2 : ℚ) /
          (((values.filter fun v => ¬isEmptyCell v).length) : ℚ) * 100) < 70 := by
        have h0 : (detectColumnType header
            (values.filter fun v => ¬isEmptyCell v)).confidence < 70 := hconf
        rw [hDT] at h0
        exact h0
      have hgt2 : (tallies ts).length > 2 := by
        rw [tallies_length]
        exact hgt
      rw [if_pos (And.intro hgt2 hconf2)]

/-- Witness for C6 at a concrete column ["budi", "", "10"]: dominant type
with maximal tally, confidence 50, not demoted to MIXED (only two distinct
types). -/
theorem c6_detectColumnType_dominant_witness :
    classifiedTypes "nama" [Cell.str "budi", Cell.str "", Cell.str "10"] ≠ [] ∧
    ∃ d : String,
      d ∈ classifiedTypes "nama" [Cell.str "budi", Cell.str "", Cell.str "10"] ∧
      (∀ t : String,
        (classifiedTypes "nama" [Cell.str "budi", Cell.str "", Cell.str "10"]).count t ≤
        (classifiedTypes "nama" [Cell.str "budi", Cell.str "", Cell.str "10"]).count d) ∧
      (analyzeColumn "nama" [Cell.str "budi", Cell.str "", Cell.str "10"]).confidence =
        jsRound (((classifiedTypes "nama"
            [Cell.str "budi", Cell.str "", Cell.str "10"]).count d : ℚ) /
          ((classifiedTypes "nama" [Cell.str "budi", Cell.str "", Cell.str "10"]).length : ℚ)
            * 100) ∧
      ((analyzeColumn "nama" [Cell.str "budi", Cell.str "", Cell.str "10"]).detectedType =
          "mixed" ∨
        (analyzeColumn "nama" [Cell.str "budi", Cell.str "", Cell.str "10"]).detectedType = d) ∧
      ((analyzeColumn "nama" [Cell.str "budi", Cell.str "", Cell.str "10"]).detectedType =
          "mixed" ↔
        ((classifiedTypes "nama" [Cell.str "budi", Cell.str "", Cell.str "10"]).dedup.length
            > 2 ∧
          (analyzeColumn "nama" [Cell.str "budi", Cell.str "", Cell.str "10"]).confidence
            < 70)) :=
  ⟨by decide, c6_detectColumnType_dominant "nama"
    [Cell.str "budi", Cell.str "", Cell.str "10"] (by decide)⟩

theorem insertVal_eq_orderedInsert (x : ℚ) (l : List ℚ) :
    insertVal x l = l.orderedInsert (· ≤ ·) x := by
  induction l with
  | nil => rfl
  | cons y ys ih =>
    simp only [insertVal, List.orderedInsert]
    by_cases h : x ≤ y
    · rw [if_pos h, if_pos h]
    · rw [if_neg h, if_neg h, ih]

theorem sortVals_eq_insertionSort (l : List ℚ) :
    sortVals l = l.insertionSort (· ≤ ·) := by
  induction l with
  | nil => rfl
  | cons x xs ih =>
    have h0 : sortVals (x :: xs) = insertVal x (sortVals xs) := rfl
    rw [h0, ih, insertVal_eq_orderedInsert]
    rfl

theorem sortVals_sorted (l : List ℚ) : (sortVals l).Sorted (· ≤ ·) := by
  rw [sortVals_eq_insertionSort]
  exact List.sorted_insertionSort _ l

theorem sortVals_perm (l : List ℚ) : List.Perm (sortVals l) l := by
  rw [sortVals_eq_insertionSort]
  exact List.perm_insertionSort _ l

theorem insertByVal_map_fst (x : ℚ × Nat) (l : List (ℚ × Nat)) :
    (insertByVal x l).map (·.1) = insertVal x.1 (l.map (·.1)) := by
  induction l with
  | nil => rfl
  | cons y ys ih =>
    simp only [insertByVal, List.map_cons, insertVal]
    by_cases h : x.1 ≤ y.1
    · rw [if_pos h, if_pos h]
      simp
    · rw [if_neg h, if_neg h]
      simp [ih]

theorem sortPairs_map_fst (l : List (ℚ × Nat)) :
    (sortPairs l).map (·.1) = sortVals (l.map (·.1)) := by
  induction l with
  | nil => rfl
  | cons x xs ih =>
    have h0 : sortPairs (x :: xs) = insertByVal x (sortPairs xs) := rfl
    have h1 : sortVals ((x :: xs).map (·.1)) =
        insertVal x.1 (sortVals (xs.map (·.1))) := rfl
    rw [h0, h1, insertByVal_map_fst, ih]

theorem sortPairs_length (l : List (ℚ × Nat)) : (sortPairs l).length = l.length := by
  have h1 : ((sortPairs l).map (·.1)).length = (sortVals (l.map (·.1))).length := by
    rw [sortPairs_map_fst]
  rw [List.length_map] at h1
  rw [h1, (sortVals_perm (l.map (·.1))).length_eq, List.length_map]

theorem get_fst_getD (l : List (ℚ × Nat)) (i : Nat) :
    ((l.get? i).getD (0, 0)).1 = ((l.map (·.1)).get? i).getD 0 := by
  rw [List.get?_eq_getElem?, List.get?_eq_getElem?, List.getElem?_map]
  cases h : l[i]? with
  | none => rfl
  | some p => rfl

theorem detectOutliers_spec (values : List Cell) (threshold : ℚ) :
    detectOutliers values threshold =
      if (colNumbers values).length < 4 then []
      else
        ((colNumbers values).filter fun p =>
            p.1 < specLower values threshold ∨ p.1 > specUpper values threshold).map fun p =>
          ⟨p.2, p.1, if p.1 < specLower values threshold then "Terlalu kecil"
            else "Terlalu besar"⟩ := by
  have hc : (values.enum.filterMap fun p => (parseNumberCell p.2).map fun q => (q, p.1)) =
      colNumbers values := rfl
  rw [detectOutliers, hc]
  by_cases h4 : (colNumbers values).length < 4
  · rw [if_pos h4, if_pos h4]
  · rw [if_neg h4, if_neg h4]
    dsimp only
    have hq1 : (((sortPairs (colNumbers values)).get?
        ((sortPairs (colNumbers values)).length / 4)).getD (0, 0)).1 = specQ1 values := by
      rw [get_fst_getD, sortPairs_map_fst, sortPairs_length, specQ1]
    have hq3 : (((sortPairs (colNumbers values)).get?
        (3 * (sortPairs (colNumbers values)).length / 4)).getD (0, 0)).1 = specQ3 values := by
      rw [get_fst_getD, sortPairs_map_fst, sortPairs_length, specQ3]
    rw [hq1, hq3, specLower, specUpper]

theorem detectOutlierIssues_lt10 (header : String) (values : List (Cell × Nat))
    (threshold : ℚ)
    (h : (values.filterMap fun v => parseNumberCell v.1).length < 10) :
    detectOutlierIssues header values threshold = [] := by
  rw [detectOutlierIssues, if_pos h]

theorem detectDuplicatesAux_not_outlier (headers : List String) :
    ∀ (rows : List RowObj) (i : Nat) (seen : List (String × Nat)),
      ∀ x ∈ detectDuplicatesAux headers rows i seen, x.type ≠ "OUTLIER" := by
  intro rows
  induction rows with
  | nil =>
    intro i seen x hx
    simp [detectDuplicatesAux] at hx
  | cons r rest ih =>
    intro i seen x hx
    simp only [detectDuplicatesAux] at hx
    split at hx
    · rcases List.mem_cons.mp hx with h | h
      · rw [h]
        simp
      · exact ih _ _ x h
    · exact ih _ _ x hx

theorem detectEmptyRows_not_outlier (rows : List RowObj) (headers : List String) :
    ∀ x ∈ detectEmptyRows rows headers, x.type ≠ "OUTLIER" := by
  intro x hx
  rw [detectEmptyRows, List.mem_filterMap] at hx
  obtain ⟨p, _, hp⟩ := hx
  split at hp
  · rw [Option.some_inj] at hp
    rw [← hp]
    simp
  · exact Option.noConfusion hp

theorem detectFormatInconsistency_not_outlier (header : String) (ca : ColumnAnalysis) :
    ∀ x ∈ detectFormatInconsistency header ca, x.type ≠ "OUTLIER" := by
  intro x hx
  rw [detectFormatInconsistency] at hx
  split at hx
  · rw [List.mem_singleton] at hx
    rw [hx]
    simp
  · exact absurd hx (List.not_mem_nil x)

theorem detectValidationErrors_not_outlier (header : String) (values : List (Cell × Nat))
    (ca : ColumnAnalysis) :
    ∀ x ∈ detectValidationErrors header values ca, x.type ≠ "OUTLIER" := by
  intro x hx
  rw [detectValidationErrors, List.mem_filterMap] at hx
  obtain ⟨p, _, hp⟩ := hx
  repeat' split at hp
  all_goals
    first
      | exact Option.noConfusion hp
      | (rw [Option.some_inj] at hp; rw [← hp]; simp)

theorem detectWhitespaceIssues_not_outlier (header : String) (values : List (Cell × Nat)) :
    ∀ x ∈ detectWhitespaceIssues header values, x.type ≠ "OUTLIER" := by
  intro x hx
  rw [detectWhitespaceIssues, List.mem_bind] at hx
  obtain ⟨p, _, hp⟩ := hx
  split at hp
  · exact absurd hp (List.not_mem_nil x)
  · rcases List.mem_append.mp hp with h | h <;> split at h <;>
      first
        | (rw [List.mem_singleton] at h; rw [h]; simp)
        | exact absurd h (List.not_mem_nil x)

theorem subtotalIssues_not_outlier (qc pc sc : Option String) (row : RowObj) (n : Nat) :
    ∀ x ∈ subtotalIssues qc pc sc row n, x.type ≠ "OUTLIER" := by
  intro x hx
  rcases qc with _ | a <;> rcases pc with _ | b <;> rcases sc with _ | c <;>
      simp only [subtotalIssues] at hx <;>
    repeat' split at hx
  all_goals
    first
      | exact absurd hx (List.not_mem_nil x)
      | (rw [List.mem_singleton] at hx; rw [hx]; simp)

theorem ppnIssues_not_outlier (pc sc ppnc tc : Option String) (rate : ℚ)
    (row : RowObj) (n : Nat) :
    ∀ x ∈ ppnIssues pc sc ppnc tc rate row n, x.type ≠ "OUTLIER" := by
  intro x hx
  rcases ppnc with _ | pcol <;> simp only [ppnIssues] at hx <;>
    repeat' split at hx
  all_goals
    first
      | exact absurd hx (List.not_mem_nil x)
      | (rw [List.mem_singleton] at hx; rw [hx]; simp)

theorem detectCalculationErrors_not_outlier (rows : List RowObj) (headers : List String)
    (rate : ℚ) : ∀ x ∈ detectCalculationErrors rows headers rate, x.type ≠ "OUTLIER" := by
  intro x hx
  rw [detectCalculationErrors, List.mem_bind] at hx
  obtain ⟨p, _, hp⟩ := hx
  rcases List.mem_append.mp hp with h | h
  · exact subtotalIssues_not_outlier _ _ _ _ _ x h
  · exact ppnIssues_not_outlier _ _ _ _ _ _ _ x h

theorem detectTypos_not_outlier (rows : List RowObj) (headers : List String)
    (cas : List ColumnAnalysis) (threshold : ℚ) :
    ∀ x ∈ detectTypos rows headers cas threshold, x.type ≠ "OUTLIER" := by
  intro x hx
  rw [detectTypos, List.mem_bind] at hx
  obtain ⟨h, _, hx⟩ := hx
  dsimp only at hx
  split at hx
  · exact absurd hx (List.not_mem_nil x)
  · split at hx
    · exact absurd hx (List.not_mem_nil x)
    · rw [List.mem_bind] at hx
      obtain ⟨i, _, hx⟩ := hx
      split at hx
      · rw [List.mem_filterMap] at hx
        obtain ⟨p, _, hp⟩ := hx
        repeat' split at hp
        all_goals
          first
            | exact Option.noConfusion hp
            | (rw [Option.some_inj] at hp; rw [← hp]; simp)
      · exact absurd hx (List.not_mem_nil x)

theorem outlier_issue_source (headers : List String) (rows : List RowObj)
    (cas : List ColumnAnalysis) (opts : AnalyzerOptions) :
    ∀ x ∈ detectIssues headers rows cas opts, x.type = "OUTLIER" →
      ∃ header ∈ headers, (colLookup cas header).isNumeric ∧ opts.detectOutliers ∧
        ¬((mkColVals rows header).filterMap fun v => parseNumberCell v.1).length < 10 ∧
        x ∈ detectOutlierIssues header (mkColVals rows header) opts.outlierThreshold := by
  intro x hx htype
  rw [detectIssues] at hx
  rcases List.mem_append.mp hx with hx | hty
  · rcases List.mem_append.mp hx with hx | hcalc
    · rcases List.mem_append.mp hx with hx | hcol
      · rcases List.mem_append.mp hx with hdup | hemp
        · exact absurd htype (detectDuplicatesAux_not_outlier headers rows 0 [] x hdup)
        · exact absurd htype (detectEmptyRows_not_outlier rows headers x hemp)
      · rw [List.mem_bind] at hcol
        obtain ⟨header, hh, hmem⟩ := hcol
        dsimp only at hmem
        rcases List.mem_append.mp hmem with hmem | hout
        · rcases List.mem_append.mp hmem with hmem | h
          · rcases List.mem_append.mp hmem with h | h
            · exact absurd htype (detectFormatInconsistency_not_outlier header _ x h)
            · exact absurd htype (detectValidationErrors_not_outlier header _ _ x h)
          · exact absurd htype (detectWhitespaceIssues_not_outlier header _ x h)
        · by_cases hcond : (colLookup cas header).isNumeric ∧ opts.detectOutliers
          · rw [if_pos hcond] at hout
            refine ⟨header, hh, hcond.1, hcond.2, ?_, hout⟩
            intro hlt
            rw [detectOutlierIssues_lt10 _ _ _ hlt] at hout
            exact absurd hout (List.not_mem_nil x)
          · rw [if_neg hcond] at hout
            exact absurd hout (List.not_mem_nil x)
    · by_cases hcc : opts.checkCalculations
      · rw [if_pos hcc] at hcalc
        exact absurd htype (detectCalculationErrors_not_outlier rows headers _ x hcalc)
      · rw [if_neg hcc] at hcalc
        exact absurd hcalc (List.not_mem_nil x)
  · exact absurd htype (detectTypos_not_outlier rows headers cas _ x hty)

/-- C7: outlier detection is gated (only numeric-typed columns with outlier
checking enabled reach `detectOutlierIssues`, and fewer than 10 parseable
numeric values yield no issues); `sortVals` really sorts (sorted
permutation); `detectOutliers` flags exactly the values strictly outside
`[Q1 − k·IQR, Q3 + k·IQR]` with Q1/Q3 read from the sorted values at the
floored quartile indices, tagging each with a too-small/too-large reason;
and on the column [10,11,9,12,10,11,1000,9,10,11] exactly the value 1000
is flagged, as too large. -/
theorem c7_outlier_iqr :
    (∀ (header : String) (values : List (Cell × Nat)) (threshold : ℚ),
      (values.filterMap fun v => parseNumberCell v.1).length < 10 →
        detectOutlierIssues header values threshold = []) ∧
    (∀ l : List ℚ, (sortVals l).Sorted (· ≤ ·) ∧ List.Perm (sortVals l) l) ∧
    (∀ (values : List Cell) (threshold : ℚ),
      detectOutliers values threshold =
        if (colNumbers values).length < 4 then []
        else
          ((colNumbers values).filter fun p =>
              p.1 < specLower values threshold ∨
                p.1 > specUpper values threshold).map fun p =>
            ⟨p.2, p.1, if p.1 < specLower values threshold then "Terlalu kecil"
              else "Terlalu besar"⟩) ∧
    (∀ (headers : List String) (rows : List RowObj) (cas : List ColumnAnalysis)
        (opts : AnalyzerOptions), ∀ x ∈ detectIssues headers rows cas opts,
      x.type = "OUTLIER" →
        ∃ header ∈ headers, (colLookup cas header).isNumeric ∧ opts.detectOutliers ∧
          ¬((mkColVals rows header).filterMap fun v => parseNumberCell v.1).length < 10 ∧
          x ∈ detectOutlierIssues header (mkColVals rows header) opts.outlierThreshold) ∧
    detectOutlierIssues "amount" exColC7 (3/2) =
      [{ type := "OUTLIER", severity := "warning", row := some 8,
         column := some "amount", value := some (Cell.num 1000),
         reason := some "Terlalu besar", autoFixable := false }] :=
  ⟨fun header values threshold h => detectOutlierIssues_lt10 header values threshold h,
   fun l => ⟨sortVals_sorted l, sortVals_perm l⟩,
   fun values threshold => detectOutliers_spec values threshold,
   fun headers rows cas opts => outlier_issue_source headers rows cas opts,
   by decide⟩

/-- Witness for C7 at a concrete short column: fewer than 10 parseable
numeric values, so no outlier issues are produced. -/
theorem c7_outlier_iqr_witness :
    (([(Cell.str "abc", 2)] : List (Cell × Nat)).filterMap fun v =>
        parseNumberCell v.1).length < 10 ∧
      detectOutlierIssues "amount" [(Cell.str "abc", 2)] (3/2) = [] :=
  ⟨by decide, c7_outlier_iqr.1 "amount" [(Cell.str "abc", 2)] (3/2) (by decide)⟩

theorem analyze_bad (pd : ParsedData) (name : Option String) (opts : AnalyzerOptions)
    (h : badInput pd name = true) :
    analyze pd name opts = Except.error "Sheet kosong atau tidak ditemukan" := by
  rw [badInput] at h
  cases hlk : pd.sheets.lookup (resolveSheetName pd name) with
  | none =>
    unfold analyze
    rw [hlk]
  | some s =>
    rw [hlk] at h
    simp only [decide_eq_true_eq] at h
    unfold analyze
    rw [hlk]
    dsimp only
    rw [if_pos h]

theorem analyze_ok_total (pd : ParsedData) (name : Option String) (opts : AnalyzerOptions)
    (h : badInput pd name = false) : ∃ r, analyze pd name opts = Except.ok r := by
  rw [badInput] at h
  cases hlk : pd.sheets.lookup (resolveSheetName pd name) with
  | none =>
    rw [hlk] at h
    simp at h
  | some s =>
    rw [hlk] at h
    simp only [decide_eq_false_iff_not] at h
    unfold analyze
    rw [hlk]
    dsimp only
    rw [if_neg h]
    exact ⟨_, rfl⟩

theorem resolveRef_empty (rpd : RefParsedData) (name : Option String)
    (h : resolveRefSheetName rpd name = "") : rpd.activeSheet = "" := by
  cases name with
  | none => exact h
  | some n =>
    rw [resolveRefSheetName] at h
    by_cases hn : n = ""
    · rwa [if_pos hn] at h
    · rw [if_neg hn] at h
      exact absurd h hn

theorem resolve_empty (pd : ParsedData) (name : Option String)
    (h : resolveSheetName pd name = "") : pd.activeSheet = "" := by
  cases name with
  | none => exact h
  | some n =>
    rw [resolveSheetName] at h
    by_cases hn : n = ""
    · rwa [if_pos hn] at h
    · rw [if_neg hn] at h
      exact absurd h hn

theorem lookup_map_val {A B : Type} (f : A → B) (l : List (String × A)) (n : String) :
    (l.map fun p => (p.1, f p.2)).lookup n = (l.lookup n).map f := by
  induction l with
  | nil => rfl
  | cons p rest ih =>
    obtain ⟨k, v⟩ := p
    by_cases hk : n = k
    · subst hk
      simp [List.lookup_cons]
    · have hbeq : (n == k) = false := by simp [hk]
      simp [List.lookup_cons, hbeq, ih]

theorem allocRows_length : ∀ (rows : List RowObj) (h : Heap),
    ((allocRows h rows).2).length = rows.length := by
  intro rows
  induction rows with
  | nil => intro h; rfl
  | cons o rest ih =>
    intro h
    simp only [allocRows, List.length_cons]
    rw [ih]

theorem initSheets_lookup_none : ∀ (ss : List (String × Sheet)) (h : Heap) (n : String),
    ss.lookup n = none → ((initSheets h ss).2).lookup n = none := by
  intro ss
  induction ss with
  | nil => intro h n _; rfl
  | cons p rest ih =>
    intro h n hlk
    obtain ⟨k, sh⟩ := p
    by_cases hk : n = k
    · subst hk
      rw [List.lookup_cons_self] at hlk
      exact Option.noConfusion hlk
    · have hbeq : (n == k) = false := by simp [hk]
      simp only [List.lookup_cons, hbeq] at hlk
      simp only [initSheets, List.lookup_cons, hbeq]
      exact ih _ _ hlk

theorem initSheets_lookup_some : ∀ (ss : List (String × Sheet)) (h : Heap) (n : String)
    (s : Sheet), ss.lookup n = some s →
    ∃ refs, ((initSheets h ss).2).lookup n = some ⟨s.headers, refs⟩ ∧
      refs.length = s.rows.length := by
  intro ss
  induction ss with
  | nil => intro h n s hlk; exact Option.noConfusion hlk
  | cons p rest ih =>
    intro h n s hlk
    obtain ⟨k, sh⟩ := p
    by_cases hk : n = k
    · subst hk
      rw [List.lookup_cons_self, Option.some_inj] at hlk
      subst hlk
      refine ⟨(allocRows h sh.rows).2, ?_, allocRows_length _ _⟩
      simp only [initSheets]
      rw [List.lookup_cons_self]
    · have hbeq : (n == k) = false := by simp [hk]
      simp only [List.lookup_cons, hbeq] at hlk
      obtain ⟨refs, h1, h2⟩ := ih (allocRows h sh.rows).1 n s hlk
      refine ⟨refs, ?_, h2⟩
      simp only [initSheets, List.lookup_cons, hbeq]
      exact h1

theorem badInput_deref (h : Heap) (rpd : RefParsedData) (name : Option String)
    (sheetR : RefSheet)
    (hl : rpd.sheets.lookup (resolveRefSheetName rpd name) = some sheetR)
    (hlen : sheetR.rowRefs.length ≠ 0) :
    badInput (derefPD h rpd) (some (resolveRefSheetName rpd name)) = false := by
  rw [badInput]
  have htar : resolveSheetName (derefPD h rpd) (some (resolveRefSheetName rpd name)) =
      resolveRefSheetName rpd name := by
    rw [resolveSheetName]
    by_cases ht : resolveRefSheetName rpd name = ""
    · rw [if_pos ht, ht]
      show rpd.activeSheet = ""
      exact resolveRef_empty rpd name ht
    · rw [if_neg ht]
  rw [htar]
  have hmap : (derefPD h rpd).sheets.lookup (resolveRefSheetName rpd name) =
      (rpd.sheets.lookup (resolveRefSheetName rpd name)).map (derefSheet h) :=
    lookup_map_val (derefSheet h) rpd.sheets _
  rw [hmap, hl, Option.map_some']
  simp [derefSheet, hlen]

theorem cleanStore_bad (h0 : Heap) (rpd : RefParsedData) (name : Option String)
    (options : CleanOptions)
    (hb : ∀ s', rpd.sheets.lookup (resolveRefSheetName rpd name) = some s' →
      s'.rowRefs.length = 0) :
    (cleanStore h0 rpd name options).2 =
      Except.error "Sheet kosong atau tidak ditemukan" := by
  unfold cleanStore
  dsimp only
  cases hl : rpd.sheets.lookup (resolveRefSheetName rpd name) with
  | none => rfl
  | some s' =>
    dsimp only
    rw [if_pos (hb s' hl)]

theorem cleanStore_ok (h0 : Heap) (rpd : RefParsedData) (name : Option String)
    (options : CleanOptions) (sheetR : RefSheet)
    (hl : rpd.sheets.lookup (resolveRefSheetName rpd name) = some sheetR)
    (hlen : sheetR.rowRefs.length ≠ 0) (hft : options.fixTypos = false) :
    ∃ h' r, cleanStore h0 rpd name options = (h', Except.ok r) := by
  obtain ⟨a, han⟩ := analyze_ok_total (derefPD (allocCopies h0 sheetR.rowRefs).1 rpd)
    (some (resolveRefSheetName rpd name)) {}
    (badInput_deref (allocCopies h0 sheetR.rowRefs).1 rpd name sheetR hl hlen)
  unfold cleanStore
  simp only [hl]
  rw [if_neg hlen]
  simp only [han]
  rw [if_neg (show ¬(options.fixTypos = true) by simp [hft])]
  exact ⟨_, _, rfl⟩

theorem cleanTable_bad (pd : ParsedData) (name : Option String) (options : CleanOptions)
    (h : badInput pd name = true) :
    cleanTable pd name options = Except.error "Sheet kosong atau tidak ditemukan" := by
  have hres : resolveRefSheetName
      { sheets := (initSheets ⟨0, []⟩ pd.sheets).2, activeSheet := pd.activeSheet } name =
      resolveSheetName pd name := by
    cases name with
    | none => rfl
    | some n => by_cases hn : n = "" <;> simp [resolveRefSheetName, resolveSheetName, hn]
  have hcs : (cleanStore (initSheets ⟨0, []⟩ pd.sheets).1
      { sheets := (initSheets ⟨0, []⟩ pd.sheets).2, activeSheet := pd.activeSheet }
      name options).2 = Except.error "Sheet kosong atau tidak ditemukan" := by
    apply cleanStore_bad
    intro s' hs'
    rw [hres] at hs'
    dsimp only at hs'
    rw [badInput] at h
    cases hlk : pd.sheets.lookup (resolveSheetName pd name) with
    | none =>
      rw [initSheets_lookup_none pd.sheets ⟨0, []⟩ _ hlk] at hs'
      exact Option.noConfusion hs'
    | some s =>
      rw [hlk] at h
      simp only [decide_eq_true_eq] at h
      obtain ⟨refs, h1, h2⟩ := initSheets_lookup_some pd.sheets ⟨0, []⟩ _ s hlk
      rw [h1, Option.some_inj] at hs'
      rw [← hs']
      dsimp only
      rw [h2]
      exact h
  unfold cleanTable
  dsimp only
  cases hpair : cleanStore (initSheets ⟨0, []⟩ pd.sheets).1
      { sheets := (initSheets ⟨0, []⟩ pd.sheets).2, activeSheet := pd.activeSheet }
      name options with
  | mk h' res =>
    rw [hpair] at hcs
    dsimp only at hcs
    subst hcs
    rfl

theorem cleanTable_good (pd : ParsedData) (name : Option String) (options : CleanOptions)
    (h : badInput pd name = false) (hft : options.fixTypos = false) :
    ∃ r, cleanTable pd name options = Except.ok r := by
  rw [badInput] at h
  cases hlk : pd.sheets.lookup (resolveSheetName pd name) with
  | none =>
    rw [hlk] at h
    simp at h
  | some s =>
    rw [hlk] at h
    simp only [decide_eq_false_iff_not] at h
    have hres : resolveRefSheetName
        { sheets := (initSheets ⟨0, []⟩ pd.sheets).2, activeSheet := pd.activeSheet } name =
        resolveSheetName pd name := by
      cases name with
      | none => rfl
      | some n => by_cases hn : n = "" <;> simp [resolveRefSheetName, resolveSheetName, hn]
    obtain ⟨refs, h1, h2⟩ :=
      initSheets_lookup_some pd.sheets ⟨0, []⟩ (resolveSheetName pd name) s hlk
    have hlkr : (RefParsedData.mk (initSheets ⟨0, []⟩ pd.sheets).2
        pd.activeSheet).sheets.lookup
        (resolveRefSheetName
          (RefParsedData.mk (initSheets ⟨0, []⟩ pd.sheets).2 pd.activeSheet) name) =
        some ⟨s.headers, refs⟩ := by
      rw [hres]
      exact h1
    have hlenr : (⟨s.headers, refs⟩ : RefSheet).rowRefs.length ≠ 0 := by
      dsimp only
      rw [h2]
      exact h
    obtain ⟨h', r, hcs⟩ := cleanStore_ok (initSheets ⟨0, []⟩ pd.sheets).1
      { sheets := (initSheets ⟨0, []⟩ pd.sheets).2, activeSheet := pd.activeSheet }
      name options ⟨s.headers, refs⟩ hlkr hlenr hft
    unfold cleanTable
    dsimp only
    rw [hcs]
    exact ⟨_, rfl⟩

/-- C8: a missing target sheet or one with zero rows makes both `analyze`
and `clean` fail with the descriptive message "Sheet kosong atau tidak
ditemukan" and no partial result; on every other input `analyze` always
returns a result (per-cell parse failures never abort it), and `clean`
with its typo stage disabled does too. -/
theorem c8_error_handling :
    (∀ (pd : ParsedData) (name : Option String) (opts : AnalyzerOptions),
      badInput pd name = true →
        analyze pd name opts = Except.error "Sheet kosong atau tidak ditemukan") ∧
    (∀ (pd : ParsedData) (name : Option String) (opts : AnalyzerOptions),
      badInput pd name = false → ∃ r, analyze pd name opts = Except.ok r) ∧
    (∀ (pd : ParsedData) (name : Option String) (options : CleanOptions),
      badInput pd name = true →
        cleanTable pd name options = Except.error "Sheet kosong atau tidak ditemukan") ∧
    (∀ (pd : ParsedData) (name : Option String) (options : CleanOptions),
      badInput pd name = false → options.fixTypos = false →
        ∃ r, cleanTable pd name options = Except.ok r) :=
  ⟨analyze_bad, analyze_ok_total, cleanTable_bad, cleanTable_good⟩

/-- Witness for C8: a parsed workbook with no sheets is bad input, and
`analyze` on it fails with the descriptive message. -/
theorem c8_error_handling_witness :
    badInput { sheets := [], activeSheet := "S" } none = true ∧
      analyze { sheets := [], activeSheet := "S" } none {} =
        Except.error "Sheet kosong atau tidak ditemukan" :=
  ⟨by decide, c8_error_handling.1 { sheets := [], activeSheet := "S" } none {} (by decide)⟩

theorem frame_refl (n : Nat) (h : Heap) (hn : n ≤ h.next) : FrameTo n h h :=
  ⟨hn, fun _ _ => rfl⟩

theorem frame_trans {n : Nat} {a b c : Heap} (f1 : FrameTo n a b) (f2 : FrameTo n b c) :
    FrameTo n a c :=
  ⟨f2.1, fun r hr => (f2.2 r hr).trans (f1.2 r hr)⟩

theorem alloc_frame (n : Nat) (h : Heap) (o : RowObj) (hn : n ≤ h.next) :
    FrameTo n h (h.alloc o).1 := by
  refine ⟨?_, ?_⟩
  · show n ≤ h.next + 1
    omega
  · intro r hr
    show ((h.next, o) :: h.mem).lookup r = h.mem.lookup r
    have hbeq : (r == h.next) = false := by
      simp only [beq_eq_false_iff_ne]
      omega
    simp only [List.lookup_cons, hbeq]

theorem assocUpdate_lookup_ne : ∀ (mem : List (Nat × RowObj)) (r : Nat) (k : String)
    (v : Cell) (x : Nat), x ≠ r → (assocUpdate mem r k v).lookup x = mem.lookup x := by
  intro mem
  induction mem with
  | nil => intro r k v x _; rfl
  | cons p rest ih =>
    intro r k v x hx
    obtain ⟨i, o⟩ := p
    by_cases hi : i = r
    · subst hi
      have hb : assocUpdate ((i, o) :: rest) i k v = (i, objSet o k v) :: rest := by
        simp [assocUpdate]
      rw [hb]
      have hbeq : (x == i) = false := by simp [hx]
      simp only [List.lookup_cons, hbeq]
    · simp only [assocUpdate, if_neg hi]
      by_cases hxi : x = i
      · subst hxi
        simp [List.lookup_cons]
      · have hbeq : (x == i) = false := by simp [hxi]
        simp only [List.lookup_cons, hbeq]
        exact ih r k v x hx

theorem frame_set (n : Nat) (h : Heap) (r : Nat) (k : String) (v : Cell)
    (hn : n ≤ h.next) (hr : n ≤ r) : FrameTo n h (h.set r k v) := by
  refine ⟨hn, ?_⟩
  intro x hx
  show (assocUpdate h.mem r k v).lookup x = h.mem.lookup x
  exact assocUpdate_lookup_ne h.mem r k v x (by omega)

theorem applyEdits_frame (n : Nat) : ∀ (es : List (String × Cell)) (h : Heap) (r : Nat),
    n ≤ h.next → n ≤ r → FrameTo n h (applyEdits h r es) := by
  intro es
  induction es with
  | nil => intro h r hn _; exact frame_refl n h hn
  | cons p rest ih =>
    intro h r hn hr
    obtain ⟨k, v⟩ := p
    show FrameTo n h (applyEdits (h.set r k v) r rest)
    exact frame_trans (frame_set n h r k v hn hr) (ih (h.set r k v) r hn hr)

theorem copyEditRow_frame (n : Nat) (edits : RowObj → List (String × Cell))
    (h : Heap) (r : Nat) (hn : n ≤ h.next) : FrameTo n h (copyEditRow edits h r).1 := by
  show FrameTo n h (applyEdits (h.alloc (h.get r)).1 (h.alloc (h.get r)).2
    (edits ((h.alloc (h.get r)).1.get (h.alloc (h.get r)).2)))
  refine frame_trans (alloc_frame n h (h.get r) hn) ?_
  apply applyEdits_frame
  · show n ≤ h.next + 1
    omega
  · show n ≤ h.next
    exact hn

theorem mapRows_frame (n : Nat) (f : Heap → Nat → Heap × Nat × Nat)
    (hf : ∀ (h : Heap) (r : Nat), n ≤ h.next → FrameTo n h (f h r).1) :
    ∀ (refs : List Nat) (h : Heap), n ≤ h.next →
      FrameTo n h (mapRowsStore f h refs).1 := by
  intro refs
  induction refs with
  | nil => intro h hn; exact frame_refl n h hn
  | cons r rest ih =>
    intro h hn
    show FrameTo n h (mapRowsStore f (f h r).1 rest).1
    have f1 := hf h r hn
    exact frame_trans f1 (ih (f h r).1 f1.1)

theorem frame_stage_chain (n : Nat) (h0 : Heap) (c : Prop) [Decidable c]
    (edits : RowObj → List (String × Cell)) (H : Heap) (R : List Nat)
    (f : FrameTo n h0 H) :
    FrameTo n h0 (if c then mapRowsStore (copyEditRow edits) H R else (H, R, 0)).1 := by
  split
  · exact frame_trans f (mapRows_frame n (copyEditRow edits)
      (fun h r hn => copyEditRow_frame n edits h r hn) R H f.1)
  · exact f

theorem allocCopies_frame (n : Nat) : ∀ (refs : List Nat) (h : Heap), n ≤ h.next →
    FrameTo n h (allocCopies h refs).1 := by
  intro refs
  induction refs with
  | nil => intro h hn; exact frame_refl n h hn
  | cons r rest ih =>
    intro h hn
    show FrameTo n h (allocCopies (h.alloc (h.get r)).1 rest).1
    refine frame_trans (alloc_frame n h (h.get r) hn) ?_
    apply ih
    show n ≤ h.next + 1
    omega

theorem cleanStore_frame (h0 : Heap) (rpd : RefParsedData) (name : Option String)
    (options : CleanOptions) :
    FrameTo h0.next h0 (cleanStore h0 rpd name options).1 := by
  unfold cleanStore
  dsimp only
  cases hlk : rpd.sheets.lookup (resolveRefSheetName rpd name) with
  | none => exact frame_refl _ h0 (le_refl _)
  | some sheet =>
    dsimp only
    by_cases hlen : sheet.rowRefs.length = 0
    · rw [if_pos hlen]
      exact frame_refl _ h0 (le_refl _)
    · rw [if_neg hlen]
      cases han : analyze (derefPD (allocCopies h0 sheet.rowRefs).1 rpd)
          (some (resolveRefSheetName rpd name)) ({} : AnalyzerOptions) with
      | error e =>
        dsimp only
        exact allocCopies_frame _ _ h0 (le_refl _)
      | ok analysis =>
        dsimp only
        by_cases hft : options.fixTypos = true
        · rw [if_pos hft]
          dsimp only
          apply frame_stage_chain
          apply frame_stage_chain
          apply frame_stage_chain
          apply frame_stage_chain
          apply frame_stage_chain
          exact allocCopies_frame _ _ h0 (le_refl _)
        · rw [if_neg hft]
          dsimp only
          apply frame_stage_chain
          apply frame_stage_chain
          apply frame_stage_chain
          apply frame_stage_chain
          apply frame_stage_chain
          exact allocCopies_frame _ _ h0 (le_refl _)

theorem derefSheet_frame {n : Nat} {h h' : Heap} (f : FrameTo n h h') (s : RefSheet)
    (hb : ∀ r ∈ s.rowRefs, r < n) : derefSheet h' s = derefSheet h s := by
  have hm : s.rowRefs.map h'.get = s.rowRefs.map h.get :=
    List.map_congr_left (fun r hr => by
      show (h'.mem.lookup r).getD [] = (h.mem.lookup r).getD []
      rw [f.2 r (hb r hr)])
  unfold derefSheet
  rw [hm]

theorem derefPD_frame {n : Nat} {h h' : Heap} (f : FrameTo n h h') (rpd : RefParsedData)
    (hw : RefsBelow n rpd) : derefPD h' rpd = derefPD h rpd := by
  have hm : rpd.sheets.map (fun p => (p.1, derefSheet h' p.2)) =
      rpd.sheets.map (fun p => (p.1, derefSheet h p.2)) :=
    List.map_congr_left (fun p hp => by rw [derefSheet_frame f p.2 (hw p hp)])
  unfold derefPD
  rw [hm]

/-- C9: cleaning never mutates the caller's rows.  The heap after
`cleanStore` agrees with the initial heap on every pre-existing reference
— on the error paths too — so dereferencing the input table afterwards
yields exactly the pre-call headers, row list and cell values; the
returned table is built from freshly allocated copies. -/
theorem c9_clean_no_mutation (h0 : Heap) (rpd : RefParsedData) (name : Option String)
    (options : CleanOptions) (hw : RefsBelow h0.next rpd) :
    FrameTo h0.next h0 (cleanStore h0 rpd name options).1 ∧
    derefPD (cleanStore h0 rpd name options).1 rpd = derefPD h0 rpd := by
  have f := cleanStore_frame h0 rpd name options
  exact ⟨f, derefPD_frame f rpd hw⟩

/-- Witness for C9 at a one-row table stored at reference 0 of a
one-object heap. -/
theorem c9_clean_no_mutation_witness :
    RefsBelow (⟨1, [(0, [("a", Cell.str "x")])]⟩ : Heap).next
      { sheets := [("S", { headers := ["a"], rowRefs := [0] })], activeSheet := "S" } ∧
    (FrameTo (⟨1, [(0, [("a", Cell.str "x")])]⟩ : Heap).next
        ⟨1, [(0, [("a", Cell.str "x")])]⟩
        (cleanStore ⟨1, [(0, [("a", Cell.str "x")])]⟩
          { sheets := [("S", { headers := ["a"], rowRefs := [0] })], activeSheet := "S" }
          none {}).1 ∧
      derefPD (cleanStore ⟨1, [(0, [("a", Cell.str "x")])]⟩
          { sheets := [("S", { headers := ["a"], rowRefs := [0] })], activeSheet := "S" }
          none {}).1
        { sheets := [("S", { headers := ["a"], rowRefs := [0] })], activeSheet := "S" } =
      derefPD ⟨1, [(0, [("a", Cell.str "x")])]⟩
        { sheets := [("S", { headers := ["a"], rowRefs := [0] })], activeSheet := "S" }) :=
  ⟨by decide, c9_clean_no_mutation ⟨1, [(0, [("a", Cell.str "x")])]⟩
    { sheets := [("S", { headers := ["a"], rowRefs := [0] })], activeSheet := "S" }
    none {} (by decide)⟩

theorem cleanStore_fixTypos (h0 : Heap) (rpd : RefParsedData) (name : Option String)
    (options : CleanOptions) (sheetR : RefSheet)
    (hl : rpd.sheets.lookup (resolveRefSheetName rpd name) = some sheetR)
    (hlen : sheetR.rowRefs.length ≠ 0) (hft : options.fixTypos = true) :
    (cleanStore h0 rpd name options).2 =
      Except.error "TypeError: issues.filter is not a function" := by
  obtain ⟨a, han⟩ := analyze_ok_total (derefPD (allocCopies h0 sheetR.rowRefs).1 rpd)
    (some (resolveRefSheetName rpd name)) {}
    (badInput_deref (allocCopies h0 sheetR.rowRefs).1 rpd name sheetR hl hlen)
  unfold cleanStore
  simp only [hl]
  rw [if_neg hlen]
  simp only [han]
  rw [if_pos hft]

theorem cleanTable_fixTypos_error (pd : ParsedData) (name : Option String)
    (options : CleanOptions) (h : badInput pd name = false)
    (hft : options.fixTypos = true) :
    cleanTable pd name options =
      Except.error "TypeError: issues.filter is not a function" := by
  rw [badInput] at h
  cases hlk : pd.sheets.lookup (resolveSheetName pd name) with
  | none =>
    rw [hlk] at h
    simp at h
  | some s =>
    rw [hlk] at h
    simp only [decide_eq_false_iff_not] at h
    have hres : resolveRefSheetName
        { sheets := (initSheets ⟨0, []⟩ pd.sheets).2, activeSheet := pd.activeSheet } name =
        resolveSheetName pd name := by
      cases name with
      | none => rfl
      | some n => by_cases hn : n = "" <;> simp [resolveRefSheetName, resolveSheetName, hn]
    obtain ⟨refs, h1, h2⟩ :=
      initSheets_lookup_some pd.sheets ⟨0, []⟩ (resolveSheetName pd name) s hlk
    have hlkr : (RefParsedData.mk (initSheets ⟨0, []⟩ pd.sheets).2
        pd.activeSheet).sheets.lookup
        (resolveRefSheetName
          (RefParsedData.mk (initSheets ⟨0, []⟩ pd.sheets).2 pd.activeSheet) name) =
        some ⟨s.headers, refs⟩ := by
      rw [hres]
      exact h1
    have hlenr : (⟨s.headers, refs⟩ : RefSheet).rowRefs.length ≠ 0 := by
      dsimp only
      rw [h2]
      exact h
    have hcs := cleanStore_fixTypos (initSheets ⟨0, []⟩ pd.sheets).1
      { sheets := (initSheets ⟨0, []⟩ pd.sheets).2, activeSheet := pd.activeSheet }
      name options ⟨s.headers, refs⟩ hlkr hlenr hft
    unfold cleanTable
    dsimp only
    cases hpair : cleanStore (initSheets ⟨0, []⟩ pd.sheets).1
        { sheets := (initSheets ⟨0, []⟩ pd.sheets).2, activeSheet := pd.activeSheet }
        name options with
    | mk h' res =>
      rw [hpair] at hcs
      dsimp only at hcs
      subst hcs
      rfl

/-- C10, counterexample to the claim as stated: on the very table the
claim describes (an empty row before the flagged typo row), `clean` with
the typo stage enabled does not return a table with a misapplied fix — it
returns no table at all, failing with the aggregate-issues TypeError. -/
theorem c10_fix_misalignment_counterexample :
    cleanTable exPDC10 none { fixTypos := true } =
      Except.error "TypeError: issues.filter is not a function" :=
  cleanTable_fixTypos_error exPDC10 none { fixTypos := true } (by decide) rfl

/-- C10 (amended): `clean` with the typo stage enabled always throws
"TypeError: issues.filter is not a function" on a non-empty sheet (it
hands the aggregate issues object to `fixTypos`); the analyzer does flag
the `exRowsC10` typo at original-table row 8 suggesting "santoso"; and the
`fixTypos` transform itself, applied to the list already shrunk by
removeEmptyRows, writes the suggestion into index 6 (a "budi" row) while
index 5 keeps "santosa" — the misalignment the claim describes, unreachable
behind the TypeError. -/
theorem c10_fixTypos_crash :
    (∀ (pd : ParsedData) (name : Option String) (options : CleanOptions),
      badInput pd name = false → options.fixTypos = true →
        cleanTable pd name options =
          Except.error "TypeError: issues.filter is not a function") ∧
    detectTypos exRowsC10 ["nama"] (analyzeColumns ["nama"] exRowsC10) (85/100) =
      [exTypoIssueC10] ∧
    ((fixTyposStore exHeapC10 [0, 1, 2, 3, 4, 5, 6, 7, 8] [exTypoIssueC10]).1.get
        ((fixTyposStore exHeapC10 [0, 1, 2, 3, 4, 5, 6, 7, 8]
          [exTypoIssueC10]).2.1.getD 6 0) = [("nama", Cell.str "santoso")] ∧
      (fixTyposStore exHeapC10 [0, 1, 2, 3, 4, 5, 6, 7, 8] [exTypoIssueC10]).1.get
        ((fixTyposStore exHeapC10 [0, 1, 2, 3, 4, 5, 6, 7, 8]
          [exTypoIssueC10]).2.1.getD 5 0) = [("nama", Cell.str "santosa")]) :=
  ⟨cleanTable_fixTypos_error, by decide, by decide, by decide⟩

/-- Witness for C10 at the concrete table `exPDC10` with the typo stage
enabled. -/
theorem c10_fixTypos_crash_witness :
    badInput exPDC10 none = false ∧
      ({ fixTypos := true } : CleanOptions).fixTypos = true ∧
      cleanTable exPDC10 none { fixTypos := true } =
        Except.error "TypeError: issues.filter is not a function" :=
  ⟨by decide, rfl, c10_fixTypos_crash.1 exPDC10 none { fixTypos := true } (by decide) rfl⟩

end DQ
